import Mathlib

/-!
Verification of the football match-prediction engine: a shallow embedding of
the value-bet detector, Kelly staking, Elo helpers, the Poisson/Dixon-Coles
goal model, the ensemble combiner, and the feature-engineering pipeline,
together with theorems settling the specification claims about them.

Conventions of the embedding:
* Python float arithmetic is modelled exactly, over `ℚ` where the source is
  pure rational arithmetic (odds, edges, Kelly stakes, team strengths) and
  over `ℝ` where it is transcendental (Poisson pmf, Elo expected scores).
* Python `round(x, 2)` is modelled by `pyRound2`; Mathlib `round` is
  half-up while Python rounds half-to-even, so statements below avoid exact
  half-way ties.
* Django `Queryset.filter/order_by/[:n]` over a table is modelled by
  `List.filter`, a deterministic descending insertion sort, and `List.take`.
* Timestamps are modelled as integers (only their order is ever used).
-/

/-- Python `round(v, 2)`: round a value to two decimal places. -/
def pyRound2 (v : ℚ) : ℚ := ((round (v * 100) : ℤ) : ℚ) / 100

namespace GetOdds

/-- Embeds `calculate_implied_probability` of
`predictions/management/commands/get_odds.py`: convert decimal odds to the
implied probability `1/odds`. -/
def calculate_implied_probability (odds : ℚ) : ℚ := 1 / odds

/-- Embeds `calculate_margin` of `get_odds.py`: bookmaker overround in
percentage points. -/
def calculate_margin (home_odds draw_odds away_odds : ℚ) : ℚ :=
  (1 / home_odds + 1 / draw_odds + 1 / away_odds - 1) * 100

/-- Embeds `calculate_edge` of `get_odds.py`. -/
def calculate_edge (model_prob implied_prob : ℚ) : ℚ := model_prob - implied_prob

/-- Embeds `grade_bet` of `get_odds.py`: the grade ladder over edge size. -/
def grade_bet (edge : ℚ) : String :=
  if edge > 1/10 then "A+"
  else if edge > 7/100 then "A"
  else if edge > 1/20 then "B"
  else if edge > 3/100 then "C"
  else if edge > 1/50 then "D"
  else "F"

/-- Embeds `kelly_stake` of `get_odds.py`: returns `(stake, kelly_fraction)`.
The `edge` variable of the source is the expected-value edge
`probability * odds - 1`, which has the same sign as
`probability - 1/odds` for positive odds. -/
def kelly_stake (probability odds bankroll fraction max_stake_pct : ℚ) : ℚ × ℚ :=
  let edge := probability * odds - 1
  if edge ≤ 0 then (0, 0)
  else
    let kelly_fraction := edge / (odds - 1)
    let stake := bankroll * kelly_fraction * fraction
    (min stake (bankroll * max_stake_pct), kelly_fraction)

/-- Embeds `calculate_ev` of `get_odds.py`: returns `(ev, roi)`. -/
def calculate_ev (probability odds stake : ℚ) : ℚ × ℚ :=
  let win_amount := stake * (odds - 1)
  let lose_amount := stake
  let ev := probability * win_amount - (1 - probability) * lose_amount
  let roi := if stake > 0 then ev / stake * 100 else 0
  (ev, roi)

/-- Embeds the `ValueBet` dataclass of `get_odds.py`. -/
structure ValueBet where
  outcome : String
  model_prob : ℚ
  odds : ℚ
  implied_prob : ℚ
  edge : ℚ
  grade : String
  kelly_fraction : ℚ
  stake : ℚ
  ev : ℚ
  roi : ℚ
  is_value : Bool
  deriving Repr, DecidableEq

/-- Embeds `analyze_bet` of `get_odds.py`. The call to `kelly_stake` leaves
`max_stake_pct` at its default `0.05`. -/
def analyze_bet (model_prob odds bankroll : ℚ) (outcome : String)
    (kelly_fraction min_edge : ℚ) : ValueBet :=
  let implied_prob := calculate_implied_probability odds
  let edge := calculate_edge model_prob implied_prob
  let grade := grade_bet edge
  let sk := kelly_stake model_prob odds bankroll kelly_fraction (1/20)
  let evroi := if sk.1 > 0 then calculate_ev model_prob odds sk.1 else (0, 0)
  { outcome := outcome
    model_prob := model_prob
    odds := odds
    implied_prob := implied_prob
    edge := edge
    grade := grade
    kelly_fraction := sk.2
    stake := sk.1
    ev := evroi.1
    roi := evroi.2
    is_value := decide (edge ≥ min_edge) }

/-- Result of `analyze_match` of `get_odds.py`. -/
structure MatchAnalysis where
  margin : ℚ
  home : ValueBet
  draw : ValueBet
  away : ValueBet
  value_bets : List String
  best_value : Option String
  deriving Repr, DecidableEq

/-- Embeds `analyze_match` of `get_odds.py`: analyze all three 1X2 outcomes.
Python `max(items, key=edge)` keeps the earliest maximal item, iterating the
dict in insertion order home, draw, away. -/
def analyze_match (home_prob draw_prob away_prob home_odds draw_odds away_odds
    bankroll kelly_fraction min_edge : ℚ) : MatchAnalysis :=
  let margin := calculate_margin home_odds draw_odds away_odds
  let home := analyze_bet home_prob home_odds bankroll "Home Win" kelly_fraction min_edge
  let draw := analyze_bet draw_prob draw_odds bankroll "Draw" kelly_fraction min_edge
  let away := analyze_bet away_prob away_odds bankroll "Away Win" kelly_fraction min_edge
  let value_bets :=
    (if home.is_value then ["home"] else []) ++
    (if draw.is_value then ["draw"] else []) ++
    (if away.is_value then ["away"] else [])
  let best1 : String × ValueBet := ("home", home)
  let best2 : String × ValueBet := if draw.edge > best1.2.edge then ("draw", draw) else best1
  let best3 : String × ValueBet := if away.edge > best2.2.edge then ("away", away) else best2
  { margin := margin
    home := home
    draw := draw
    away := away
    value_bets := value_bets
    best_value := if best3.2.is_value then some best3.1 else none }

end GetOdds

namespace Ensemble

/-- Python truthiness of an optional numeric field: `None` and `0` are falsy. -/
def truthy (o : Option ℚ) : Bool :=
  match o with
  | none => false
  | some v => decide (v ≠ 0)

/-- Embeds the per-branch expression
`1 / odds if odds else 0` of `ValueBetDetector.find_value_bets`
(`predictions/ml/ensemble.py`). -/
def impliedOf (o : Option ℚ) : ℚ :=
  if truthy o then 1 / o.getD 0 else 0

/-- Embeds `ValueBetDetector._kelly_stake` of `predictions/ml/ensemble.py`.
The fraction argument is always the default `0.25` at the call sites. The
result is a percentage of bankroll, rounded to two decimals and capped at
10 percent. -/
def kelly_stake (probability odds fraction : ℚ) : ℚ :=
  let b := odds - 1
  let p := probability
  let q := 1 - p
  let kelly := (b * p - q) / b
  let kelly := kelly * fraction
  let kelly := max 0 (min kelly (1/10))
  pyRound2 (kelly * 100)

/-- One entry of the list returned by `ValueBetDetector.find_value_bets`. -/
structure EnsembleValueBet where
  market : String
  model_prob : ℚ
  implied_prob : ℚ
  edge : ℚ
  odds : Option ℚ
  confidence : ℚ
  recommended_stake : ℚ
  deriving Repr, DecidableEq

/-- Embeds `ValueBetDetector.find_value_bets` of `predictions/ml/ensemble.py`,
parametrised by the ensembled result probabilities and the match's stored
B365 odds (optional columns). The source first bails out when the home odds
field is falsy, converts each available odds to `1/odds` (0 when absent),
normalizes the implied triple by its sum when positive, and emits one entry
per outcome whose edge strictly exceeds `min_edge`. Calling `_kelly_stake`
with absent odds would raise in Python; that corner (absent draw/away odds
together with a qualifying edge) is modelled by `Option.getD 0`. -/
def find_value_bets (prob_home prob_draw prob_away confidence : ℚ)
    (odds_home odds_draw odds_away : Option ℚ) (min_edge : ℚ) :
    List EnsembleValueBet :=
  if ¬ truthy odds_home then []
  else
    let implied_home := impliedOf odds_home
    let implied_draw := impliedOf odds_draw
    let implied_away := impliedOf odds_away
    let total_implied := implied_home + implied_draw + implied_away
    let implied_home := if total_implied > 0 then implied_home / total_implied else implied_home
    let implied_draw := if total_implied > 0 then implied_draw / total_implied else implied_draw
    let implied_away := if total_implied > 0 then implied_away / total_implied else implied_away
    let edge_home := prob_home - implied_home
    let edge_draw := prob_draw - implied_draw
    let edge_away := prob_away - implied_away
    (if edge_home > min_edge then
      [{ market := "home_win", model_prob := prob_home, implied_prob := implied_home,
         edge := edge_home, odds := odds_home, confidence := confidence,
         recommended_stake := kelly_stake prob_home (odds_home.getD 0) (1/4) }]
     else []) ++
    (if edge_draw > min_edge then
      [{ market := "draw", model_prob := prob_draw, implied_prob := implied_draw,
         edge := edge_draw, odds := odds_draw, confidence := confidence,
         recommended_stake := kelly_stake prob_draw (odds_draw.getD 0) (1/4) }]
     else []) ++
    (if edge_away > min_edge then
      [{ market := "away_win", model_prob := prob_away, implied_prob := implied_away,
         edge := edge_away, odds := odds_away, confidence := confidence,
         recommended_stake := kelly_stake prob_away (odds_away.getD 0) (1/4) }]
     else [])

end Ensemble

namespace Poisson

/-- Poisson probability mass function `P(X = k) = λ^k e^(−λ) / k!`, the value
computed by `scipy.stats.poisson.pmf` inside
`PoissonModel.predict_score_probability` (`predictions/ml/poisson.py`). -/
noncomputable def pmf (lam : ℝ) (k : ℕ) : ℝ :=
  lam ^ k * Real.exp (-lam) / (Nat.factorial k : ℝ)

/-- Embeds `PoissonModel.calculate_expected_goals`: expected goals from
attack/defense strengths, the home-advantage factor and the league average. -/
noncomputable def calculate_expected_goals (home_advantage league_avg_goals
    home_attack home_defense away_attack away_defense : ℝ) : ℝ × ℝ :=
  (home_attack * away_defense * home_advantage * league_avg_goals,
   away_attack * home_defense * league_avg_goals)

/-- Embeds `PoissonModel.predict_score_probability`: independent product of
the two Poisson pmfs. -/
noncomputable def predict_score_probability (lambda_home lambda_away : ℝ)
    (home_goals away_goals : ℕ) : ℝ :=
  pmf lambda_home home_goals * pmf lambda_away away_goals

/-- Embeds `DixonColesModel.tau_correction`: the low-score correction factor
`τ(x, y)`, following the if/elif chain of the source. -/
noncomputable def tau_correction (rho lambda_home lambda_away : ℝ) (home_goals away_goals : ℕ) : ℝ :=
  if home_goals = 0 ∧ away_goals = 0 then 1 - lambda_home * lambda_away * rho
  else if home_goals = 1 ∧ away_goals = 0 then 1 + lambda_away * rho
  else if home_goals = 0 ∧ away_goals = 1 then 1 + lambda_home * rho
  else if home_goals = 1 ∧ away_goals = 1 then 1 - rho
  else 1

/-- Embeds `DixonColesModel.predict_score_probability`:
`P_DC(x,y) = τ(x,y) · P_Poisson(x,y)`. -/
noncomputable def dc_score_probability (rho lambda_home lambda_away : ℝ)
    (home_goals away_goals : ℕ) : ℝ :=
  tau_correction rho lambda_home lambda_away home_goals away_goals *
    predict_score_probability lambda_home lambda_away home_goals away_goals

/-- The index set of the truncated `(max_goals+1) × (max_goals+1)` score
matrix of `predict_match_outcome`. -/
def grid (max_goals : ℕ) : Finset (ℕ × ℕ) :=
  Finset.range (max_goals + 1) ×ˢ Finset.range (max_goals + 1)

/-- Return dictionary of `PoissonModel.predict_match_outcome`. -/
structure MatchOutcome where
  home_win : ℝ
  draw : ℝ
  away_win : ℝ
  over_05 : ℝ
  over_15 : ℝ
  over_25 : ℝ
  over_35 : ℝ
  btts : ℝ
  expected_total_goals : ℝ
  lambda_home : ℝ
  lambda_away : ℝ

/-- Embeds `PoissonModel.predict_match_outcome` (`predictions/ml/poisson.py`),
parametrised by the score-probability function `score` so that the same
definition covers both `PoissonModel` and the `DixonColesModel` override of
`predict_score_probability` (Python virtual dispatch).  The matrix entry
`prob_matrix[i, j]` is `score i j` on the truncated grid.
`home_win` is the strictly-lower-triangle sum (`np.tril(·, -1)`), `draw` the
diagonal, `away_win` the strictly-upper triangle; `under_25` is the
`prob_matrix[0:2, 0:2]` block sum exactly as in the source (the numpy slice
is clipped at the matrix size); `under_35` sums entries with total goals at
most 3; `btts` uses row-0/column-0 inclusion-exclusion.  The fixed index
accesses `[1,0]` and `[0,1]` assume `1 ≤ max_goals`, as at every call site
(`max_goals` is 10 throughout the repository). -/
noncomputable def predict_match_outcome (score : ℕ → ℕ → ℝ)
    (lambda_home lambda_away : ℝ) (max_goals : ℕ) : MatchOutcome :=
  let under_15 := score 0 0 + score 1 0 + score 0 1
  let under_25 :=
    ∑ p ∈ Finset.range (min 2 (max_goals + 1)) ×ˢ Finset.range (min 2 (max_goals + 1)),
      score p.1 p.2
  let under_35 := ∑ p ∈ (grid max_goals).filter (fun p => p.1 + p.2 ≤ 3), score p.1 p.2
  { home_win := ∑ p ∈ (grid max_goals).filter (fun p => p.2 < p.1), score p.1 p.2
    draw := ∑ p ∈ (grid max_goals).filter (fun p => p.1 = p.2), score p.1 p.2
    away_win := ∑ p ∈ (grid max_goals).filter (fun p => p.1 < p.2), score p.1 p.2
    over_05 := 1 - score 0 0
    over_15 := 1 - under_15
    over_25 := 1 - under_25
    over_35 := 1 - under_35
    btts := 1 - (∑ j ∈ Finset.range (max_goals + 1), score 0 j)
              - (∑ i ∈ Finset.range (max_goals + 1), score i 0) + score 0 0
    expected_total_goals := lambda_home + lambda_away
    lambda_home := lambda_home
    lambda_away := lambda_away }

/-- `PoissonModel.predict_match_outcome` with the plain Poisson score law. -/
noncomputable def poisson_match_outcome (lambda_home lambda_away : ℝ)
    (max_goals : ℕ) : MatchOutcome :=
  predict_match_outcome (predict_score_probability lambda_home lambda_away)
    lambda_home lambda_away max_goals

/-- `DixonColesModel.predict_match_outcome`: the inherited driver with the
Dixon-Coles score law. -/
noncomputable def dc_match_outcome (rho lambda_home lambda_away : ℝ)
    (max_goals : ℕ) : MatchOutcome :=
  predict_match_outcome (dc_score_probability rho lambda_home lambda_away)
    lambda_home lambda_away max_goals

/-- Total mass of the truncated score matrix of `predict_match_outcome`. -/
noncomputable def matrix_sum (score : ℕ → ℕ → ℝ) (max_goals : ℕ) : ℝ :=
  ∑ p ∈ grid max_goals, score p.1 p.2

/-- Cumulative mass of scorelines whose goal total is at most `k` inside the
truncated matrix — the threshold semantics the specification prescribes for
the under/over markets. -/
noncomputable def under_mass (score : ℕ → ℕ → ℝ) (max_goals k : ℕ) : ℝ :=
  ∑ p ∈ (grid max_goals).filter (fun p => p.1 + p.2 ≤ k), score p.1 p.2

end Poisson

namespace Elo

/-- Embeds `calculate_expected_score` of `predictions/ml/elo.py`:
`E_A = 1 / (1 + 10^(−(R_A + H − R_B)/400))` with the home advantage added to
team A's rating. -/
noncomputable def calculate_expected_score (rating_a rating_b home_advantage : ℝ) : ℝ :=
  let adjusted_rating_a := rating_a + home_advantage
  let rating_diff := adjusted_rating_a - rating_b
  1 / (1 + (10 : ℝ) ^ (-rating_diff / 400))

/-- Embeds `calculate_new_rating` of `predictions/ml/elo.py`:
`R' = R + K · G · (S − E)`. -/
noncomputable def calculate_new_rating (current_rating expected_score actual_score k_factor
    goal_margin_multiplier : ℝ) : ℝ :=
  current_rating + k_factor * goal_margin_multiplier * (actual_score - expected_score)

/-- Embeds `calculate_goal_margin_multiplier` of `predictions/ml/elo.py`. -/
noncomputable def calculate_goal_margin_multiplier (goal_diff : ℤ) : ℝ :=
  if goal_diff ≤ 1 then 1
  else if goal_diff = 2 then 3/2
  else if goal_diff = 3 then 7/4
  else 7/4 + ((goal_diff : ℝ) - 3) / 8

end Elo

namespace Strengths

/-- One entry of the `matches` list consumed by `estimate_team_strengths`
(`predictions/ml/poisson.py`). -/
structure GoalsMatch where
  home_team_id : ℕ
  away_team_id : ℕ
  home_goals : ℕ
  away_goals : ℕ
  deriving Repr, DecidableEq

/-- Mean of a list of naturals as an exact rational (`np.mean`). -/
def meanN (l : List ℕ) : ℚ := ((l.map (Nat.cast : ℕ → ℚ)).sum) / (l.length : ℚ)

/-- The `goals_scored` list accumulated for team `t` by
`estimate_team_strengths`: home goals of its home matches and away goals of
its away matches, in match order. -/
def goals_scored (ms : List GoalsMatch) (t : ℕ) : List ℕ :=
  (ms.map fun m =>
    (if m.home_team_id = t then [m.home_goals] else []) ++
    (if m.away_team_id = t then [m.away_goals] else [])).flatten

/-- The `goals_conceded` list accumulated for team `t` by
`estimate_team_strengths`. -/
def goals_conceded (ms : List GoalsMatch) (t : ℕ) : List ℕ :=
  (ms.map fun m =>
    (if m.home_team_id = t then [m.away_goals] else []) ++
    (if m.away_team_id = t then [m.home_goals] else [])).flatten

/-- The `all_goals` list of `estimate_team_strengths`. -/
def all_goals (ms : List GoalsMatch) : List ℕ :=
  (ms.map fun m => [m.home_goals, m.away_goals]).flatten

/-- The `league_avg` of `estimate_team_strengths`:
`np.mean(all_goals) if all_goals else 1.35`. -/
def league_avg (ms : List GoalsMatch) : ℚ :=
  if all_goals ms = [] then 27/20 else meanN (all_goals ms)

/-- The attack strength `estimate_team_strengths` assigns to team `t`:
`max(avg_scored / league_avg, 0.3)`, where `avg_scored` falls back to the
league average for a team with an empty goals list. -/
def attack_strength (ms : List GoalsMatch) (t : ℕ) : ℚ :=
  let la := league_avg ms
  let gs := goals_scored ms t
  let avg_scored := if gs = [] then la else meanN gs
  max (avg_scored / la) (3/10)

/-- The defense strength `estimate_team_strengths` assigns to team `t`. -/
def defense_strength (ms : List GoalsMatch) (t : ℕ) : ℚ :=
  let la := league_avg ms
  let gc := goals_conceded ms t
  let avg_conceded := if gc = [] then la else meanN gc
  max (avg_conceded / la) (3/10)

end Strengths

namespace Ensemble

/-- The flat ML probability map `ml_flat` built in
`EnsemblePredictor.predict_match` (`predictions/ml/ensemble.py`). -/
structure MLFlat where
  prob_home : ℝ
  prob_draw : ℝ
  prob_away : ℝ
  prob_over_25 : ℝ
  prob_btts : ℝ

/-- The dictionary returned by `EnsemblePredictor._predict_poisson` when both
teams have stored Poisson parameters. -/
structure PoissonPrediction where
  prob_home : ℝ
  prob_draw : ℝ
  prob_away : ℝ
  prob_over_25 : ℝ
  prob_btts : ℝ
  lambda_home : ℝ
  lambda_away : ℝ
  expected_total_goals : ℝ

/-- The dictionary returned by `EnsemblePredictor._combine_predictions`. -/
structure CombinedPrediction where
  prob_home : ℝ
  prob_draw : ℝ
  prob_away : ℝ
  prob_over_25 : ℝ
  prob_btts : ℝ
  expected_total_goals : ℝ

/-- Embeds `EnsemblePredictor._combine_predictions`: weighted combination
with the `market_weights` table of `__init__` (result 0.70/0.30,
over-2.5 0.50/0.50, btts 0.50/0.50), then renormalization of the result
triple by its sum. -/
noncomputable def combine_predictions (ml_pred : MLFlat)
    (poisson_pred : PoissonPrediction) : CombinedPrediction :=
  let w_ml : ℝ := 0.70
  let w_poisson : ℝ := 0.30
  let prob_home := w_ml * ml_pred.prob_home + w_poisson * poisson_pred.prob_home
  let prob_draw := w_ml * ml_pred.prob_draw + w_poisson * poisson_pred.prob_draw
  let prob_away := w_ml * ml_pred.prob_away + w_poisson * poisson_pred.prob_away
  let total := prob_home + prob_draw + prob_away
  let prob_home := prob_home / total
  let prob_draw := prob_draw / total
  let prob_away := prob_away / total
  let w_ml_over : ℝ := 0.50
  let w_poisson_over : ℝ := 0.50
  let prob_over_25 := w_ml_over * ml_pred.prob_over_25 +
    w_poisson_over * poisson_pred.prob_over_25
  let w_ml_btts : ℝ := 0.50
  let w_poisson_btts : ℝ := 0.50
  let prob_btts := w_ml_btts * ml_pred.prob_btts + w_poisson_btts * poisson_pred.prob_btts
  { prob_home := prob_home
    prob_draw := prob_draw
    prob_away := prob_away
    prob_over_25 := prob_over_25
    prob_btts := prob_btts
    expected_total_goals := poisson_pred.expected_total_goals }

/-- Python `int(x)`: truncation toward zero. -/
noncomputable def pyInt (x : ℝ) : ℤ := if 0 ≤ x then ⌊x⌋ else ⌈x⌉

/-- Python `max` over the ordered pairs
`('home', ph), ('draw', pd), ('away', pa)` with the probability as key:
keeps the earliest maximal element. -/
noncomputable def py_max_result (ph pd pa : ℝ) : String :=
  let r1 : String × ℝ := if pd > ph then ("draw", pd) else ("home", ph)
  let r2 : String × ℝ := if pa > r1.2 then ("away", pa) else r1
  r2.1

/-- Embeds `EnsemblePredictor._calculate_confidence`. -/
noncomputable def calculate_confidence (ml_pred : MLFlat)
    (poisson_pred : PoissonPrediction) : ℤ :=
  let ml_result := py_max_result ml_pred.prob_home ml_pred.prob_draw ml_pred.prob_away
  let poisson_result :=
    py_max_result poisson_pred.prob_home poisson_pred.prob_draw poisson_pred.prob_away
  let confidence : ℤ := if ml_result = poisson_result then 50 else 30
  let max_ml_prob := max ml_pred.prob_home (max ml_pred.prob_draw ml_pred.prob_away)
  let max_poisson_prob :=
    max poisson_pred.prob_home (max poisson_pred.prob_draw poisson_pred.prob_away)
  let avg_max_prob := (max_ml_prob + max_poisson_prob) / 2
  let confidence :=
    if avg_max_prob > 0.5 then confidence + pyInt ((avg_max_prob - 0.5) * 60) else confidence
  let avg_diff := (|ml_pred.prob_home - poisson_pred.prob_home| +
    |ml_pred.prob_draw - poisson_pred.prob_draw| +
    |ml_pred.prob_away - poisson_pred.prob_away|) / 3
  let confidence :=
    if avg_diff < 0.1 then confidence + 20
    else if avg_diff < 0.2 then confidence + 10
    else confidence
  min confidence 100

/-- Stored `PoissonParams` row for one team (attack/defense strengths). -/
structure TeamParams where
  attack_strength : ℝ
  defense_strength : ℝ

/-- Embeds `EnsemblePredictor._predict_poisson`.  The two
`PoissonParams.objects.get` lookups are modelled by `Option` arguments; the
source catches `DoesNotExist` and returns `None` when either is missing,
otherwise it builds a Dixon-Coles (ρ = −0.13) or plain Poisson model with
`home_advantage = 1.3` and the class constant `league_avg_goals = 2.7`, and
evaluates `predict_match_outcome` at `max_goals = 10`. -/
noncomputable def predict_poisson (use_dixon_coles : Bool)
    (home_params away_params : Option TeamParams) : Option PoissonPrediction :=
  match home_params, away_params with
  | some hp, some ap =>
    let lams := Poisson.calculate_expected_goals 1.3 2.7
      hp.attack_strength hp.defense_strength ap.attack_strength ap.defense_strength
    let predictions :=
      if use_dixon_coles then Poisson.dc_match_outcome (-0.13) lams.1 lams.2 10
      else Poisson.poisson_match_outcome lams.1 lams.2 10
    some { prob_home := predictions.home_win
           prob_draw := predictions.draw
           prob_away := predictions.away_win
           prob_over_25 := predictions.over_25
           prob_btts := predictions.btts
           lambda_home := lams.1
           lambda_away := lams.2
           expected_total_goals := predictions.expected_total_goals }
  | _, _ => none

/-- The dictionary returned by `EnsemblePredictor.predict_match`; keys that
only the ensemble branch adds (`lambda_home`, `lambda_away`,
`expected_total_goals`) are optional. -/
structure Prediction where
  prob_home : ℝ
  prob_draw : ℝ
  prob_away : ℝ
  prob_over_25 : ℝ
  prob_btts : ℝ
  method : String
  confidence : ℤ
  ml_probs : MLFlat
  poisson_probs : Option PoissonPrediction
  lambda_home : Option ℝ
  lambda_away : Option ℝ
  expected_total_goals : Option ℝ

/-- Embeds `EnsemblePredictor.predict_match`, parametrised by the flat ML
probabilities (the `EnhancedPredictor` output adaptation) and the optional
`PoissonParams` rows of the two teams.  When `_predict_poisson` yields
nothing the source returns the ML probabilities tagged `ml_only` with
confidence 60 and no Poisson output; otherwise it combines both models. -/
noncomputable def predict_match (ml_flat : MLFlat) (use_dixon_coles : Bool)
    (home_params away_params : Option TeamParams) : Prediction :=
  match predict_poisson use_dixon_coles home_params away_params with
  | none =>
    { prob_home := ml_flat.prob_home
      prob_draw := ml_flat.prob_draw
      prob_away := ml_flat.prob_away
      prob_over_25 := ml_flat.prob_over_25
      prob_btts := ml_flat.prob_btts
      method := "ml_only"
      confidence := 60
      ml_probs := ml_flat
      poisson_probs := none
      lambda_home := none
      lambda_away := none
      expected_total_goals := none }
  | some pp =>
    let combined := combine_predictions ml_flat pp
    { prob_home := combined.prob_home
      prob_draw := combined.prob_draw
      prob_away := combined.prob_away
      prob_over_25 := combined.prob_over_25
      prob_btts := combined.prob_btts
      method := "ensemble"
      confidence := calculate_confidence ml_flat pp
      ml_probs := ml_flat
      poisson_probs := some pp
      lambda_home := some pp.lambda_home
      lambda_away := some pp.lambda_away
      expected_total_goals := some combined.expected_total_goals }

end Ensemble

namespace Features

/-- One row of the `Match` table, restricted to the columns the feature
pipeline reads (`predictions/models.py`).  `utc_date` is an integer
timestamp; score and statistic columns are nullable. -/
structure MatchRow where
  id : ℕ
  home_team_id : ℕ
  away_team_id : ℕ
  competition_id : ℕ
  season : ℤ
  utc_date : ℤ
  status : String
  home_score : Option ℕ
  away_score : Option ℕ
  home_score_ht : Option ℕ
  away_score_ht : Option ℕ
  corners_home : Option ℕ
  corners_away : Option ℕ
  shots_home : Option ℕ
  shots_away : Option ℕ
  shots_on_target_home : Option ℕ
  shots_on_target_away : Option ℕ
  possession_home : Option ℚ
  possession_away : Option ℚ
  yellow_cards_home : Option ℕ
  yellow_cards_away : Option ℕ
  red_cards_home : Option ℕ
  red_cards_away : Option ℕ
  deriving Repr, DecidableEq

/-- Mean of a list of naturals as an exact rational (`np.mean`). -/
def meanN (l : List ℕ) : ℚ := ((l.map (Nat.cast : ℕ → ℚ)).sum) / (l.length : ℚ)

/-- Insert a row into a list sorted by descending `utc_date`, after any row
with the same date (stable). -/
def insertDesc (m : MatchRow) : List MatchRow → List MatchRow
  | [] => [m]
  | e :: es => if e.utc_date < m.utc_date then m :: e :: es else e :: insertDesc m es

/-- Deterministic model of `order_by('-utc_date')`: stable insertion sort by
descending date. -/
def sortDesc : List MatchRow → List MatchRow
  | [] => []
  | m :: ms => insertDesc m (sortDesc ms)

/-- The `status='FINISHED'` filter condition. -/
def isFinished (m : MatchRow) : Bool := m.status == "FINISHED"

/-- The `Q(home_team_id=t) | Q(away_team_id=t)` filter condition. -/
def involvesTeam (team_id : ℕ) (m : MatchRow) : Bool :=
  m.home_team_id == team_id || m.away_team_id == team_id

/-- A queryset filter of the pipeline: every `Match` query of
`features.py`/`enhanced_features.py` combines some row condition `p` with
`utc_date__lt=before_date`; the date bound is kept as the explicit second
conjunct so that the temporal-noninterference lemmas below can factor every
query through the past part of the table. -/
def pastFilter (db : List MatchRow) (p : MatchRow → Bool) (before_date : ℤ) :
    List MatchRow :=
  db.filter (fun m => p m && decide (m.utc_date < before_date))

/-- Goals scored by `team_id` in a finished match (`x or 0` on the side the
team played). -/
def matchGF (team_id : ℕ) (m : MatchRow) : ℕ :=
  if m.home_team_id = team_id then m.home_score.getD 0 else m.away_score.getD 0

/-- Goals conceded by `team_id` in a finished match. -/
def matchGA (team_id : ℕ) (m : MatchRow) : ℕ :=
  if m.home_team_id = team_id then m.away_score.getD 0 else m.home_score.getD 0

/-- League points from a goal pair. -/
def pointsOf (gf ga : ℕ) : ℕ := if gf > ga then 3 else if gf < ga then 0 else 1

/-- The form letter appended to `results` by `get_team_form`. -/
def resultChar (gf ga : ℕ) : String := if gf > ga then "W" else if gf < ga then "L" else "D"

/-- Return dictionary of `FeatureEngineer.get_team_form`
(`predictions/ml/features.py`); `_empty_form` is the all-zero instance. -/
structure TeamForm where
  matches_played : ℕ
  points : ℕ
  avg_points : ℚ
  goals_for : ℕ
  goals_against : ℕ
  avg_goals_for : ℚ
  avg_goals_against : ℚ
  goal_diff : ℤ
  form_string : String
  wins : ℕ
  draws : ℕ
  losses : ℕ
  win_rate : ℚ
  unbeaten_rate : ℚ
  deriving Repr, DecidableEq

/-- The `_empty_form` dictionary. -/
def emptyForm : TeamForm :=
  { matches_played := 0, points := 0, avg_points := 0, goals_for := 0,
    goals_against := 0, avg_goals_for := 0, avg_goals_against := 0,
    goal_diff := 0, form_string := "", wins := 0, draws := 0, losses := 0,
    win_rate := 0, unbeaten_rate := 0 }

/-- Embeds `FeatureEngineer.get_team_form`: last `n_matches` finished
matches of the team before `before_date`, newest first. -/
def get_team_form (db : List MatchRow) (team_id : ℕ) (before_date : ℤ)
    (n_matches : ℕ) : TeamForm :=
  let ms := (sortDesc (pastFilter db
    (fun m => involvesTeam team_id m && isFinished m) before_date)).take n_matches
  if ms = [] then emptyForm
  else
    let points := ms.map (fun m => pointsOf (matchGF team_id m) (matchGA team_id m))
    let goals_for := ms.map (matchGF team_id)
    let goals_against := ms.map (matchGA team_id)
    let results := ms.map (fun m => resultChar (matchGF team_id m) (matchGA team_id m))
    { matches_played := ms.length
      points := points.sum
      avg_points := meanN points
      goals_for := goals_for.sum
      goals_against := goals_against.sum
      avg_goals_for := meanN goals_for
      avg_goals_against := meanN goals_against
      goal_diff := (goals_for.sum : ℤ) - (goals_against.sum : ℤ)
      form_string := String.join results
      wins := results.count "W"
      draws := results.count "D"
      losses := results.count "L"
      win_rate := (results.count "W" : ℚ) / (results.length : ℚ)
      unbeaten_rate := ((results.count "W" + results.count "D" : ℕ) : ℚ) / (results.length : ℚ) }

/-- Return dictionary of `FeatureEngineer.get_home_away_form` (the subset of
`_empty_form` keys it reads is the same shape). -/
structure HomeAwayForm where
  matches_played : ℕ
  avg_points : ℚ
  avg_goals_for : ℚ
  avg_goals_against : ℚ
  win_rate : ℚ
  deriving Repr, DecidableEq

/-- Embeds `FeatureEngineer.get_home_away_form`: venue-specific recent form.
On the empty queryset the source returns `_empty_form`, whose fields restrict
to zeros here. -/
def get_home_away_form (db : List MatchRow) (team_id : ℕ) (before_date : ℤ)
    (is_home : Bool) (n_matches : ℕ) : HomeAwayForm :=
  let cond : MatchRow → Bool :=
    fun m => if is_home then m.home_team_id == team_id else m.away_team_id == team_id
  let ms := (sortDesc (pastFilter db
    (fun m => cond m && isFinished m) before_date)).take n_matches
  if ms = [] then { matches_played := 0, avg_points := 0, avg_goals_for := 0,
                    avg_goals_against := 0, win_rate := 0 }
  else
    let gfOf : MatchRow → ℕ :=
      fun m => if is_home then m.home_score.getD 0 else m.away_score.getD 0
    let gaOf : MatchRow → ℕ :=
      fun m => if is_home then m.away_score.getD 0 else m.home_score.getD 0
    let points := ms.map (fun m => pointsOf (gfOf m) (gaOf m))
    let goals_for := ms.map gfOf
    let goals_against := ms.map gaOf
    { matches_played := ms.length
      avg_points := meanN points
      avg_goals_for := meanN goals_for
      avg_goals_against := meanN goals_against
      win_rate := (points.count 3 : ℚ) / (points.length : ℚ) }

/-- Return dictionary of `FeatureEngineer.get_head_to_head`.  The empty-case
dictionary of the source omits the rate keys; the consumer reads them with
`.get(·, 0)`, so the empty case is modelled with zero rates. -/
structure H2H where
  total_matches : ℕ
  team1_wins : ℕ
  team2_wins : ℕ
  draws : ℕ
  team1_goals : ℕ
  team2_goals : ℕ
  team1_win_rate : ℚ
  team2_win_rate : ℚ
  draw_rate : ℚ
  avg_goals : ℚ
  team1_avg_goals : ℚ
  team2_avg_goals : ℚ
  deriving Repr, DecidableEq

/-- The head-to-head pair filter condition
`Q(home=t1, away=t2) | Q(home=t2, away=t1)`. -/
def h2hPair (team1_id team2_id : ℕ) (m : MatchRow) : Bool :=
  (m.home_team_id == team1_id && m.away_team_id == team2_id) ||
  (m.home_team_id == team2_id && m.away_team_id == team1_id)

/-- Goals of `team1` in a head-to-head match. -/
def t1Goals (team1_id : ℕ) (m : MatchRow) : ℕ :=
  if m.home_team_id = team1_id then m.home_score.getD 0 else m.away_score.getD 0

/-- Goals of `team2` in a head-to-head match keyed on `team1`. -/
def t2Goals (team1_id : ℕ) (m : MatchRow) : ℕ :=
  if m.home_team_id = team1_id then m.away_score.getD 0 else m.home_score.getD 0

/-- Embeds `FeatureEngineer.get_head_to_head`. -/
def get_head_to_head (db : List MatchRow) (team1_id team2_id : ℕ)
    (before_date : ℤ) (n_matches : ℕ) : H2H :=
  let ms := (sortDesc (pastFilter db
    (fun m => h2hPair team1_id team2_id m && isFinished m) before_date)).take n_matches
  if ms = [] then
    { total_matches := 0, team1_wins := 0, team2_wins := 0, draws := 0,
      team1_goals := 0, team2_goals := 0, team1_win_rate := 0,
      team2_win_rate := 0, draw_rate := 0, avg_goals := 0,
      team1_avg_goals := 0, team2_avg_goals := 0 }
  else
    let team1_wins := ms.countP (fun m => t1Goals team1_id m > t2Goals team1_id m)
    let team2_wins := ms.countP (fun m => t1Goals team1_id m < t2Goals team1_id m)
    let draws := ms.countP (fun m => t1Goals team1_id m = t2Goals team1_id m)
    let team1_goals := (ms.map (t1Goals team1_id)).sum
    let team2_goals := (ms.map (t2Goals team1_id)).sum
    let total_goals := ms.map (fun m => t1Goals team1_id m + t2Goals team1_id m)
    { total_matches := ms.length
      team1_wins := team1_wins
      team2_wins := team2_wins
      draws := draws
      team1_goals := team1_goals
      team2_goals := team2_goals
      team1_win_rate := (team1_wins : ℚ) / (ms.length : ℚ)
      team2_win_rate := (team2_wins : ℚ) / (ms.length : ℚ)
      draw_rate := (draws : ℚ) / (ms.length : ℚ)
      avg_goals := meanN total_goals
      team1_avg_goals := (team1_goals : ℚ) / (ms.length : ℚ)
      team2_avg_goals := (team2_goals : ℚ) / (ms.length : ℚ) }

/-- Return dictionary of `FeatureEngineer.get_season_stats`
(`_empty_season_stats` is the all-zero instance). -/
structure SeasonStats where
  matches_played : ℕ
  wins : ℕ
  draws : ℕ
  losses : ℕ
  goals_for : ℕ
  goals_against : ℕ
  home_wins : ℕ
  home_draws : ℕ
  home_losses : ℕ
  away_wins : ℕ
  away_draws : ℕ
  away_losses : ℕ
  clean_sheets : ℕ
  failed_to_score : ℕ
  btts : ℕ
  over_25 : ℕ
  points : ℕ
  ppg : ℚ
  avg_goals_for : ℚ
  avg_goals_against : ℚ
  win_rate : ℚ
  clean_sheet_rate : ℚ
  btts_rate : ℚ
  over_25_rate : ℚ
  deriving Repr, DecidableEq

/-- The `_empty_season_stats` dictionary (the source dict key `matches` is a
reserved word in Lean and is rendered `matches_played`). -/
def emptySeasonStats : SeasonStats :=
  { matches_played := 0, wins := 0, draws := 0, losses := 0, goals_for := 0,
    goals_against := 0, home_wins := 0, home_draws := 0, home_losses := 0,
    away_wins := 0, away_draws := 0, away_losses := 0, clean_sheets := 0,
    failed_to_score := 0, btts := 0, over_25 := 0, points := 0, ppg := 0,
    avg_goals_for := 0, avg_goals_against := 0, win_rate := 0,
    clean_sheet_rate := 0, btts_rate := 0, over_25_rate := 0 }

/-- Embeds `FeatureEngineer.get_season_stats`: season-to-date statistics of
one team in one competition before `before_date`.  Goal totals over naturals:
`gf + ga > 2.5` iff `gf + ga > 2`. -/
def get_season_stats (db : List MatchRow) (team_id competition_id : ℕ)
    (season : ℤ) (before_date : ℤ) : SeasonStats :=
  let ms := pastFilter db
    (fun m => involvesTeam team_id m && m.competition_id == competition_id &&
      m.season == season && isFinished m) before_date
  if ms = [] then emptySeasonStats
  else
    let gf := fun m => matchGF team_id m
    let ga := fun m => matchGA team_id m
    let isHome := fun (m : MatchRow) => m.home_team_id == team_id
    let wins := ms.countP (fun m => gf m > ga m)
    let draws := ms.countP (fun m => gf m = ga m)
    let losses := ms.countP (fun m => gf m < ga m)
    let n := ms.length
    let points := wins * 3 + draws
    { matches_played := n
      wins := wins
      draws := draws
      losses := losses
      goals_for := (ms.map gf).sum
      goals_against := (ms.map ga).sum
      home_wins := ms.countP (fun m => isHome m && gf m > ga m)
      home_draws := ms.countP (fun m => isHome m && gf m = ga m)
      home_losses := ms.countP (fun m => isHome m && gf m < ga m)
      away_wins := ms.countP (fun m => !isHome m && gf m > ga m)
      away_draws := ms.countP (fun m => !isHome m && gf m = ga m)
      away_losses := ms.countP (fun m => !isHome m && gf m < ga m)
      clean_sheets := ms.countP (fun m => ga m = 0)
      failed_to_score := ms.countP (fun m => gf m = 0)
      btts := ms.countP (fun m => gf m > 0 && ga m > 0)
      over_25 := ms.countP (fun m => gf m + ga m > 2)
      points := points
      ppg := (points : ℚ) / (n : ℚ)
      avg_goals_for := ((ms.map gf).sum : ℚ) / (n : ℚ)
      avg_goals_against := ((ms.map ga).sum : ℚ) / (n : ℚ)
      win_rate := (wins : ℚ) / (n : ℚ)
      clean_sheet_rate := (ms.countP (fun m => ga m = 0) : ℚ) / (n : ℚ)
      btts_rate := (ms.countP (fun m => gf m > 0 && ga m > 0) : ℚ) / (n : ℚ)
      over_25_rate := (ms.countP (fun m => gf m + ga m > 2) : ℚ) / (n : ℚ) }

end Features

namespace Features

/-- The `Match.result` model property: `H`/`D`/`A`, or `None` when a score is
missing. -/
def matchResult (m : MatchRow) : Option String :=
  match m.home_score, m.away_score with
  | some h, some a => some (if h > a then "H" else if h < a then "A" else "D")
  | _, _ => none

/-- The `Match.total_goals` model property. -/
def matchTotalGoals (m : MatchRow) : Option ℕ :=
  match m.home_score, m.away_score with
  | some h, some a => some (h + a)
  | _, _ => none

/-- The `Match.both_teams_scored` model property. -/
def matchBTTS (m : MatchRow) : Option Bool :=
  match m.home_score, m.away_score with
  | some h, some a => some (h > 0 && a > 0)
  | _, _ => none

/-- The block of target/outcome keys `calculate_match_features` adds when the
match is finished with a home score.  `over_25` reads `total_goals > 2.5`; a
finished match always stores both scores in this database, the degenerate
home-score-only row (which would raise a `TypeError` in the source) is
modelled with `getD 0`.  `btts` is `1 if both_teams_scored else 0`, where a
`None` property is falsy. -/
structure TargetBlock where
  result : Option String
  home_goals : ℕ
  away_goals : Option ℕ
  total_goals : Option ℕ
  btts : ℤ
  over_25 : ℤ
  corners_home : Option ℕ
  corners_away : Option ℕ
  shots_home : Option ℕ
  shots_away : Option ℕ
  shots_on_target_home : Option ℕ
  shots_on_target_away : Option ℕ
  possession_home : Option ℚ
  possession_away : Option ℚ
  yellow_cards_home : Option ℕ
  yellow_cards_away : Option ℕ
  red_cards_home : Option ℕ
  red_cards_away : Option ℕ
  deriving Repr, DecidableEq

/-- Builds the target block from the target row itself. -/
def targetBlock (m : MatchRow) : TargetBlock :=
  { result := matchResult m
    home_goals := m.home_score.getD 0
    away_goals := m.away_score
    total_goals := matchTotalGoals m
    btts := if matchBTTS m = some true then 1 else 0
    over_25 := if (matchTotalGoals m).getD 0 > 2 then 1 else 0
    corners_home := m.corners_home
    corners_away := m.corners_away
    shots_home := m.shots_home
    shots_away := m.shots_away
    shots_on_target_home := m.shots_on_target_home
    shots_on_target_away := m.shots_on_target_away
    possession_home := m.possession_home
    possession_away := m.possession_away
    yellow_cards_home := m.yellow_cards_home
    yellow_cards_away := m.yellow_cards_away
    red_cards_home := m.red_cards_home
    red_cards_away := m.red_cards_away }

/-- The dictionary built by `FeatureEngineer.calculate_match_features`
(`predictions/ml/features.py`), one field per dict key; the conditional
target keys are gathered in the optional `target` block. -/
structure BaseFeatures where
  match_id : ℕ
  home_team_id : ℕ
  away_team_id : ℕ
  match_date : ℤ
  home_form_points : ℚ
  home_form_gf : ℚ
  home_form_ga : ℚ
  home_form_win_rate : ℚ
  away_form_points : ℚ
  away_form_gf : ℚ
  away_form_ga : ℚ
  away_form_win_rate : ℚ
  home_at_home_points : ℚ
  home_at_home_gf : ℚ
  home_at_home_ga : ℚ
  away_at_away_points : ℚ
  away_at_away_gf : ℚ
  away_at_away_ga : ℚ
  h2h_matches : ℕ
  h2h_home_wins : ℕ
  h2h_away_wins : ℕ
  h2h_draws : ℕ
  h2h_home_win_rate : ℚ
  h2h_avg_goals : ℚ
  home_season_ppg : ℚ
  home_season_gf : ℚ
  home_season_ga : ℚ
  home_season_clean_sheet_rate : ℚ
  home_season_btts_rate : ℚ
  home_season_over25_rate : ℚ
  away_season_ppg : ℚ
  away_season_gf : ℚ
  away_season_ga : ℚ
  away_season_clean_sheet_rate : ℚ
  away_season_btts_rate : ℚ
  away_season_over25_rate : ℚ
  form_diff : ℚ
  attack_strength_home : ℚ
  attack_strength_away : ℚ
  defense_strength_home : ℚ
  ppg_diff : ℚ
  target : Option TargetBlock

/-- Embeds `FeatureEngineer.calculate_match_features`: all base features of a
target match, computed from the match table `db` strictly before the target
kickoff `m.utc_date`. -/
def calculate_match_features (db : List MatchRow) (m : MatchRow) : BaseFeatures :=
  let home_id := m.home_team_id
  let away_id := m.away_team_id
  let match_date := m.utc_date
  let home_form := get_team_form db home_id match_date 5
  let away_form := get_team_form db away_id match_date 5
  let home_at_home := get_home_away_form db home_id match_date true 5
  let away_at_away := get_home_away_form db away_id match_date false 5
  let h2h := get_head_to_head db home_id away_id match_date 10
  let home_season := get_season_stats db home_id m.competition_id m.season match_date
  let away_season := get_season_stats db away_id m.competition_id m.season match_date
  { match_id := m.id
    home_team_id := home_id
    away_team_id := away_id
    match_date := match_date
    home_form_points := home_form.avg_points
    home_form_gf := home_form.avg_goals_for
    home_form_ga := home_form.avg_goals_against
    home_form_win_rate := home_form.win_rate
    away_form_points := away_form.avg_points
    away_form_gf := away_form.avg_goals_for
    away_form_ga := away_form.avg_goals_against
    away_form_win_rate := away_form.win_rate
    home_at_home_points := home_at_home.avg_points
    home_at_home_gf := home_at_home.avg_goals_for
    home_at_home_ga := home_at_home.avg_goals_against
    away_at_away_points := away_at_away.avg_points
    away_at_away_gf := away_at_away.avg_goals_for
    away_at_away_ga := away_at_away.avg_goals_against
    h2h_matches := h2h.total_matches
    h2h_home_wins := h2h.team1_wins
    h2h_away_wins := h2h.team2_wins
    h2h_draws := h2h.draws
    h2h_home_win_rate := h2h.team1_win_rate
    h2h_avg_goals := h2h.avg_goals
    home_season_ppg := home_season.ppg
    home_season_gf := home_season.avg_goals_for
    home_season_ga := home_season.avg_goals_against
    home_season_clean_sheet_rate := home_season.clean_sheet_rate
    home_season_btts_rate := home_season.btts_rate
    home_season_over25_rate := home_season.over_25_rate
    away_season_ppg := away_season.ppg
    away_season_gf := away_season.avg_goals_for
    away_season_ga := away_season.avg_goals_against
    away_season_clean_sheet_rate := away_season.clean_sheet_rate
    away_season_btts_rate := away_season.btts_rate
    away_season_over25_rate := away_season.over_25_rate
    form_diff := home_form.avg_points - away_form.avg_points
    attack_strength_home := home_form.avg_goals_for / max away_form.avg_goals_against (1/10)
    attack_strength_away := away_form.avg_goals_for / max home_form.avg_goals_against (1/10)
    defense_strength_home := home_form.avg_goals_against / max away_form.avg_goals_for (1/10)
    ppg_diff := home_season.ppg - away_season.ppg
    target := if isFinished m && m.home_score.isSome then some (targetBlock m) else none }

/-- Return dictionary of `EnhancedFeatureEngineer.get_ultra_recent_form`
(`predictions/ml/enhanced_features.py`).  Both call sites leave `is_home`
at `None`, so only that branch of the filter is embedded. -/
structure UltraRecent where
  points : ℚ
  gf : ℚ
  ga : ℚ
  win_rate : ℚ
  deriving Repr, DecidableEq

/-- Embeds `get_ultra_recent_form`: the last three finished matches. -/
def get_ultra_recent_form (db : List MatchRow) (team_id : ℕ) (before_date : ℤ) :
    UltraRecent :=
  let ms := (sortDesc (pastFilter db
    (fun m => involvesTeam team_id m && isFinished m) before_date)).take 3
  if ms = [] then { points := 0, gf := 0, ga := 0, win_rate := 0 }
  else
    let points := ms.map (fun m => pointsOf (matchGF team_id m) (matchGA team_id m))
    { points := meanN points
      gf := meanN (ms.map (matchGF team_id))
      ga := meanN (ms.map (matchGA team_id))
      win_rate := (points.count 3 : ℚ) / (points.length : ℚ) }

/-- Return dictionary of `EnhancedFeatureEngineer.get_momentum`. -/
structure Momentum where
  momentum_points : ℚ
  momentum_goals : ℚ
  improving : ℤ
  deriving Repr, DecidableEq

/-- Embeds `get_momentum`: compares the last three finished matches with the
three before them; zero momentum when fewer than six matches exist. -/
def get_momentum (db : List MatchRow) (team_id : ℕ) (before_date : ℤ) : Momentum :=
  let ms := (sortDesc (pastFilter db
    (fun m => involvesTeam team_id m && isFinished m) before_date)).take 6
  if ms.length < 6 then { momentum_points := 0, momentum_goals := 0, improving := 0 }
  else
    let recent := ms.take 3
    let previous := (ms.drop 3).take 3
    let recentPts := recent.map (fun m => pointsOf (matchGF team_id m) (matchGA team_id m))
    let previousPts := previous.map (fun m => pointsOf (matchGF team_id m) (matchGA team_id m))
    let momentum_points := meanN recentPts - meanN previousPts
    { momentum_points := momentum_points
      momentum_goals := meanN (recent.map (matchGF team_id)) -
        meanN (previous.map (matchGF team_id))
      improving := if momentum_points > 0 then 1 else 0 }

/-- Return dictionary of `EnhancedFeatureEngineer.get_advanced_stats`. -/
structure AdvancedStats where
  avg_corners : ℚ
  avg_shots : ℚ
  avg_shots_on_target : ℚ
  conversion_rate : ℚ
  shot_accuracy : ℚ
  deriving Repr, DecidableEq

/-- A nullable statistic appended only when truthy
(`if match.corners_home: corners.append(...)`): `None` and `0` are skipped. -/
def optStat (o : Option ℕ) : List ℕ :=
  match o with
  | some c => if c = 0 then [] else [c]
  | none => []

/-- Embeds `get_advanced_stats`: shot/corner efficiency over the last
`n_matches` finished matches that carry home-corner statistics. -/
def get_advanced_stats (db : List MatchRow) (team_id : ℕ) (before_date : ℤ)
    (n_matches : ℕ) : AdvancedStats :=
  let ms := (sortDesc (pastFilter db
    (fun m => involvesTeam team_id m && isFinished m && m.corners_home.isSome)
    before_date)).take n_matches
  if ms = [] then { avg_corners := 0, avg_shots := 0, avg_shots_on_target := 0,
                    conversion_rate := 0, shot_accuracy := 0 }
  else
    let isHome := fun (m : MatchRow) => m.home_team_id = team_id
    let corners := ms.flatMap (fun m =>
      if isHome m then optStat m.corners_home else optStat m.corners_away)
    let shots := ms.flatMap (fun m =>
      if isHome m then optStat m.shots_home else optStat m.shots_away)
    let shots_on_target := ms.flatMap (fun m =>
      if isHome m then optStat m.shots_on_target_home else optStat m.shots_on_target_away)
    let goals := ms.map (fun m =>
      if isHome m then m.home_score.getD 0 else m.away_score.getD 0)
    let total_shots := shots.sum
    let total_sot := shots_on_target.sum
    let total_goals := goals.sum
    { avg_corners := if corners = [] then 0 else meanN corners
      avg_shots := if shots = [] then 0 else meanN shots
      avg_shots_on_target := if shots_on_target = [] then 0 else meanN shots_on_target
      conversion_rate :=
        if total_shots > 0 then (total_goals : ℚ) / (total_shots : ℚ) * 100 else 0
      shot_accuracy :=
        if total_shots > 0 then (total_sot : ℚ) / (total_shots : ℚ) * 100 else 0 }

/-- Return dictionary of `EnhancedFeatureEngineer.get_defensive_stats`. -/
structure DefensiveStats where
  clean_sheets : ℚ
  avg_ga_first_half : ℚ
  deriving Repr, DecidableEq

/-- Embeds `get_defensive_stats`.  After `ga_ht = x or 0` the value is never
`None`, so the `if ga_ht is not None` guard of the source always appends. -/
def get_defensive_stats (db : List MatchRow) (team_id : ℕ) (before_date : ℤ)
    (n_matches : ℕ) : DefensiveStats :=
  let ms := (sortDesc (pastFilter db
    (fun m => involvesTeam team_id m && isFinished m) before_date)).take n_matches
  if ms = [] then { clean_sheets := 0, avg_ga_first_half := 0 }
  else
    let gaHt := ms.map (fun m =>
      if m.home_team_id = team_id then m.away_score_ht.getD 0 else m.home_score_ht.getD 0)
    { clean_sheets := (ms.countP (fun m => matchGA team_id m = 0) : ℚ) / (ms.length : ℚ)
      avg_ga_first_half := meanN gaHt }

/-- Return dictionary of
`EnhancedFeatureEngineer.get_season_home_away_split`. -/
structure SeasonSplit where
  home_matches : ℕ
  home_ppg : ℚ
  home_win_rate : ℚ
  home_avg_gf : ℚ
  home_avg_ga : ℚ
  home_clean_sheet_rate : ℚ
  home_btts_rate : ℚ
  home_over25_rate : ℚ
  away_matches : ℕ
  away_ppg : ℚ
  away_win_rate : ℚ
  away_avg_gf : ℚ
  away_avg_ga : ℚ
  away_clean_sheet_rate : ℚ
  away_btts_rate : ℚ
  away_over25_rate : ℚ
  deriving Repr, DecidableEq

/-- Embeds `get_season_home_away_split`: season-to-date record split into
home fixtures and away fixtures of the team. -/
def get_season_home_away_split (db : List MatchRow) (team_id competition_id : ℕ)
    (season : ℤ) (before_date : ℤ) : SeasonSplit :=
  let home_ms := pastFilter db
    (fun m => m.home_team_id == team_id && m.competition_id == competition_id &&
      m.season == season && isFinished m) before_date
  let away_ms := pastFilter db
    (fun m => m.away_team_id == team_id && m.competition_id == competition_id &&
      m.season == season && isFinished m) before_date
  let hn := home_ms.length
  let an := away_ms.length
  let hgf := fun (m : MatchRow) => m.home_score.getD 0
  let hga := fun (m : MatchRow) => m.away_score.getD 0
  let agf := fun (m : MatchRow) => m.away_score.getD 0
  let aga := fun (m : MatchRow) => m.home_score.getD 0
  let home_wins := home_ms.countP (fun m => hgf m > hga m)
  let home_draws := home_ms.countP (fun m => hgf m = hga m)
  let away_wins := away_ms.countP (fun m => agf m > aga m)
  let away_draws := away_ms.countP (fun m => agf m = aga m)
  { home_matches := hn
    home_ppg := if hn > 0 then ((home_wins * 3 + home_draws : ℕ) : ℚ) / (hn : ℚ) else 0
    home_win_rate := if hn > 0 then (home_wins : ℚ) / (hn : ℚ) else 0
    home_avg_gf := if hn > 0 then ((home_ms.map hgf).sum : ℚ) / (hn : ℚ) else 0
    home_avg_ga := if hn > 0 then ((home_ms.map hga).sum : ℚ) / (hn : ℚ) else 0
    home_clean_sheet_rate :=
      if hn > 0 then (home_ms.countP (fun m => hga m = 0) : ℚ) / (hn : ℚ) else 0
    home_btts_rate :=
      if hn > 0 then (home_ms.countP (fun m => hgf m > 0 && hga m > 0) : ℚ) / (hn : ℚ) else 0
    home_over25_rate :=
      if hn > 0 then (home_ms.countP (fun m => hgf m + hga m > 2) : ℚ) / (hn : ℚ) else 0
    away_matches := an
    away_ppg := if an > 0 then ((away_wins * 3 + away_draws : ℕ) : ℚ) / (an : ℚ) else 0
    away_win_rate := if an > 0 then (away_wins : ℚ) / (an : ℚ) else 0
    away_avg_gf := if an > 0 then ((away_ms.map agf).sum : ℚ) / (an : ℚ) else 0
    away_avg_ga := if an > 0 then ((away_ms.map aga).sum : ℚ) / (an : ℚ) else 0
    away_clean_sheet_rate :=
      if an > 0 then (away_ms.countP (fun m => aga m = 0) : ℚ) / (an : ℚ) else 0
    away_btts_rate :=
      if an > 0 then (away_ms.countP (fun m => agf m > 0 && aga m > 0) : ℚ) / (an : ℚ) else 0
    away_over25_rate :=
      if an > 0 then (away_ms.countP (fun m => agf m + aga m > 2) : ℚ) / (an : ℚ) else 0 }

/-- Return dictionary of `EnhancedFeatureEngineer.get_h2h_advanced`. -/
structure H2HAdvanced where
  h2h_btts_rate : ℚ
  h2h_over25_rate : ℚ
  h2h_high_scoring : ℚ
  deriving Repr, DecidableEq

/-- Embeds `get_h2h_advanced`: betting-market tendencies over the last ten
head-to-head meetings. -/
def get_h2h_advanced (db : List MatchRow) (team1_id team2_id : ℕ)
    (before_date : ℤ) : H2HAdvanced :=
  let ms := (sortDesc (pastFilter db
    (fun m => h2hPair team1_id team2_id m && isFinished m) before_date)).take 10
  if ms = [] then { h2h_btts_rate := 0, h2h_over25_rate := 0, h2h_high_scoring := 0 }
  else
    let n := ms.length
    { h2h_btts_rate :=
        (ms.countP (fun m => t1Goals team1_id m > 0 && t2Goals team1_id m > 0) : ℚ) / (n : ℚ)
      h2h_over25_rate :=
        (ms.countP (fun m => t1Goals team1_id m + t2Goals team1_id m > 2) : ℚ) / (n : ℚ)
      h2h_high_scoring :=
        (ms.countP (fun m => t1Goals team1_id m + t2Goals team1_id m > 3) : ℚ) / (n : ℚ) }

end Features

namespace Features

/-- One row of the `EloRating` table (`predictions/models.py`): dual-keyed by
`(team, competition, season)`, where a `none` season marks the persistent
row.  `last_5_ratings` is the stored JSON snapshot list. -/
structure EloRow where
  team_id : ℕ
  competition_id : ℕ
  season : Option ℤ
  rating : ℝ
  last_5_ratings : List ℝ
  last_match_date : Option ℤ

/-- The `EloRating.elo_momentum` model property: newest stored rating minus
the oldest, zero when fewer than two snapshots exist. -/
noncomputable def elo_momentum (r : EloRow) : ℝ :=
  if r.last_5_ratings.length < 2 then 0
  else r.last_5_ratings.getLast?.getD 0 - r.last_5_ratings.head?.getD 0

/-- Model of `EloRating.objects.get(...)`: the unique row matching `key`, or
`none` when there is no match (Django raises the caught `DoesNotExist`).
With two or more matches Django would raise the uncaught
`MultipleObjectsReturned`; the noninterference theorem below therefore
carries the documented at-most-one-row-per-key invariant as a hypothesis,
under which this `Option` rendering is exact. -/
def eloGet (edb : List EloRow) (key : EloRow → Bool) : Option EloRow :=
  match edb.filter key with
  | [r] => some r
  | _ => none

/-- The past-dated condition on an `EloRating` row: its `last_match_date` is
unset or strictly before the cutoff.  Rows failing this condition are exactly
the ones the `get_elo_features` guard replaces by defaults, so two tables
agreeing on their past-dated rows are indistinguishable to the lookups. -/
def eloPastBefore (before_date : ℤ) (r : EloRow) : Bool :=
  match r.last_match_date with
  | none => true
  | some d => decide (d < before_date)

/-- The guarded rating extraction `get_elo_features` performs for each of its
four lookups: default `(1500, 0)` when the row is missing or when its
`last_match_date` is set and not strictly before `before_date` (the
data-leak guard), otherwise the stored rating and momentum. -/
noncomputable def ratingAndMomentum (edb : List EloRow) (key : EloRow → Bool)
    (before_date : ℤ) : ℝ × ℝ :=
  match eloGet edb key with
  | none => (1500, 0)
  | some r =>
    match r.last_match_date with
    | some d => if before_date ≤ d then (1500, 0) else (r.rating, elo_momentum r)
    | none => (r.rating, elo_momentum r)

/-- The twelve Elo features returned by
`EnhancedFeatureEngineer.get_elo_features`. -/
structure EloFeatures where
  home_elo_persistent : ℝ
  away_elo_persistent : ℝ
  elo_diff_persistent : ℝ
  elo_expected_home_persistent : ℝ
  elo_momentum_home_persistent : ℝ
  elo_momentum_away_persistent : ℝ
  home_elo_season : ℝ
  away_elo_season : ℝ
  elo_diff_season : ℝ
  elo_expected_home_season : ℝ
  elo_momentum_home_season : ℝ
  elo_momentum_away_season : ℝ

/-- Embeds `EnhancedFeatureEngineer.get_elo_features`: the dual persistent
and seasonal Elo lookups with the future-data guard, expected scores with
`DEFAULT_HOME_ADVANTAGE = 100`.  This method exists on the engineer but is
not invoked by `calculate_enhanced_features` in this codebase. -/
noncomputable def get_elo_features (edb : List EloRow)
    (home_id away_id competition_id : ℕ) (season : ℤ) (before_date : ℤ) :
    EloFeatures :=
  let hp := ratingAndMomentum edb
    (fun r => r.team_id == home_id && r.competition_id == competition_id &&
      r.season == none) before_date
  let ap := ratingAndMomentum edb
    (fun r => r.team_id == away_id && r.competition_id == competition_id &&
      r.season == none) before_date
  let hs := ratingAndMomentum edb
    (fun r => r.team_id == home_id && r.competition_id == competition_id &&
      r.season == some season) before_date
  let as_ := ratingAndMomentum edb
    (fun r => r.team_id == away_id && r.competition_id == competition_id &&
      r.season == some season) before_date
  { home_elo_persistent := hp.1
    away_elo_persistent := ap.1
    elo_diff_persistent := hp.1 - ap.1
    elo_expected_home_persistent := Elo.calculate_expected_score hp.1 ap.1 100
    elo_momentum_home_persistent := hp.2
    elo_momentum_away_persistent := ap.2
    home_elo_season := hs.1
    away_elo_season := as_.1
    elo_diff_season := hs.1 - as_.1
    elo_expected_home_season := Elo.calculate_expected_score hs.1 as_.1 100
    elo_momentum_home_season := hs.2
    elo_momentum_away_season := as_.2 }

/-- The dictionary built by
`EnhancedFeatureEngineer.calculate_enhanced_features`: all base-feature keys
(`base`) plus the enhanced keys, one field per key added by the source. -/
structure EnhancedFeatures where
  base : BaseFeatures
  home_ultra_recent_points : ℚ
  home_ultra_recent_gf : ℚ
  home_ultra_recent_ga : ℚ
  away_ultra_recent_points : ℚ
  away_ultra_recent_gf : ℚ
  away_ultra_recent_ga : ℚ
  home_momentum_points : ℚ
  home_momentum_goals : ℚ
  home_improving : ℤ
  away_momentum_points : ℚ
  away_momentum_goals : ℚ
  away_improving : ℤ
  home_avg_corners : ℚ
  home_avg_shots : ℚ
  home_conversion_rate : ℚ
  home_shot_accuracy : ℚ
  away_avg_corners : ℚ
  away_avg_shots : ℚ
  away_conversion_rate : ℚ
  away_shot_accuracy : ℚ
  home_clean_sheets_rate : ℚ
  away_clean_sheets_rate : ℚ
  momentum_diff : ℚ
  ultra_recent_form_diff : ℚ
  shot_efficiency_diff : ℚ
  home_season_home_ppg : ℚ
  home_season_home_win_rate : ℚ
  home_season_home_avg_gf : ℚ
  home_season_home_avg_ga : ℚ
  home_season_home_clean_sheet_rate : ℚ
  home_season_home_btts_rate : ℚ
  home_season_home_over25_rate : ℚ
  away_season_away_ppg : ℚ
  away_season_away_win_rate : ℚ
  away_season_away_avg_gf : ℚ
  away_season_away_avg_ga : ℚ
  away_season_away_clean_sheet_rate : ℚ
  away_season_away_btts_rate : ℚ
  away_season_away_over25_rate : ℚ
  h2h_btts_rate : ℚ
  h2h_over25_rate : ℚ
  h2h_high_scoring_rate : ℚ
  venue_ppg_diff : ℚ
  venue_gf_diff : ℚ
  venue_ga_diff : ℚ
  both_high_btts : ℤ
  both_high_over25 : ℤ
  home_form_x_attack : ℚ
  away_form_x_attack : ℚ
  home_strength_index : ℚ
  away_strength_index : ℚ
  combined_btts_probability : ℚ
  combined_over25_probability : ℚ
  home_form_venue_boost : ℚ
  away_form_venue_penalty : ℚ
  quality_ratio : ℚ
  expected_total_goals : ℚ
  expected_goal_diff : ℚ

/-- Embeds `EnhancedFeatureEngineer.calculate_enhanced_features`
(`predictions/ml/enhanced_features.py`): the base features plus the
ultra-recent, momentum, advanced, defensive, venue-split, head-to-head and
interaction features, every query bounded by the target kickoff
`m.utc_date`. -/
def calculate_enhanced_features (db : List MatchRow) (m : MatchRow) :
    EnhancedFeatures :=
  let features := calculate_match_features db m
  let home_id := m.home_team_id
  let away_id := m.away_team_id
  let match_date := m.utc_date
  let home_ultra_recent := get_ultra_recent_form db home_id match_date
  let away_ultra_recent := get_ultra_recent_form db away_id match_date
  let home_momentum := get_momentum db home_id match_date
  let away_momentum := get_momentum db away_id match_date
  let home_advanced := get_advanced_stats db home_id match_date 5
  let away_advanced := get_advanced_stats db away_id match_date 5
  let home_defense := get_defensive_stats db home_id match_date 5
  let away_defense := get_defensive_stats db away_id match_date 5
  let home_season_split := get_season_home_away_split db home_id m.competition_id m.season match_date
  let away_season_split := get_season_home_away_split db away_id m.competition_id m.season match_date
  let h2h_advanced := get_h2h_advanced db home_id away_id match_date
  let expected_home_goals := (features.home_form_gf + features.away_form_ga) / 2
  let expected_away_goals := (features.away_form_gf + features.home_form_ga) / 2
  { base := features
    home_ultra_recent_points := home_ultra_recent.points
    home_ultra_recent_gf := home_ultra_recent.gf
    home_ultra_recent_ga := home_ultra_recent.ga
    away_ultra_recent_points := away_ultra_recent.points
    away_ultra_recent_gf := away_ultra_recent.gf
    away_ultra_recent_ga := away_ultra_recent.ga
    home_momentum_points := home_momentum.momentum_points
    home_momentum_goals := home_momentum.momentum_goals
    home_improving := home_momentum.improving
    away_momentum_points := away_momentum.momentum_points
    away_momentum_goals := away_momentum.momentum_goals
    away_improving := away_momentum.improving
    home_avg_corners := home_advanced.avg_corners
    home_avg_shots := home_advanced.avg_shots
    home_conversion_rate := home_advanced.conversion_rate
    home_shot_accuracy := home_advanced.shot_accuracy
    away_avg_corners := away_advanced.avg_corners
    away_avg_shots := away_advanced.avg_shots
    away_conversion_rate := away_advanced.conversion_rate
    away_shot_accuracy := away_advanced.shot_accuracy
    home_clean_sheets_rate := home_defense.clean_sheets
    away_clean_sheets_rate := away_defense.clean_sheets
    momentum_diff := home_momentum.momentum_points - away_momentum.momentum_points
    ultra_recent_form_diff := home_ultra_recent.points - away_ultra_recent.points
    shot_efficiency_diff := home_advanced.conversion_rate - away_advanced.conversion_rate
    home_season_home_ppg := home_season_split.home_ppg
    home_season_home_win_rate := home_season_split.home_win_rate
    home_season_home_avg_gf := home_season_split.home_avg_gf
    home_season_home_avg_ga := home_season_split.home_avg_ga
    home_season_home_clean_sheet_rate := home_season_split.home_clean_sheet_rate
    home_season_home_btts_rate := home_season_split.home_btts_rate
    home_season_home_over25_rate := home_season_split.home_over25_rate
    away_season_away_ppg := away_season_split.away_ppg
    away_season_away_win_rate := away_season_split.away_win_rate
    away_season_away_avg_gf := away_season_split.away_avg_gf
    away_season_away_avg_ga := away_season_split.away_avg_ga
    away_season_away_clean_sheet_rate := away_season_split.away_clean_sheet_rate
    away_season_away_btts_rate := away_season_split.away_btts_rate
    away_season_away_over25_rate := away_season_split.away_over25_rate
    h2h_btts_rate := h2h_advanced.h2h_btts_rate
    h2h_over25_rate := h2h_advanced.h2h_over25_rate
    h2h_high_scoring_rate := h2h_advanced.h2h_high_scoring
    venue_ppg_diff := home_season_split.home_ppg - away_season_split.away_ppg
    venue_gf_diff := home_season_split.home_avg_gf - away_season_split.away_avg_gf
    venue_ga_diff := home_season_split.home_avg_ga - away_season_split.away_avg_ga
    both_high_btts :=
      if home_season_split.home_btts_rate > 1/2 ∧ away_season_split.away_btts_rate > 1/2
      then 1 else 0
    both_high_over25 :=
      if home_season_split.home_over25_rate > 1/2 ∧ away_season_split.away_over25_rate > 1/2
      then 1 else 0
    home_form_x_attack := features.home_form_points * features.home_form_gf
    away_form_x_attack := features.away_form_points * features.away_form_gf
    home_strength_index := features.home_season_ppg * features.home_season_gf
    away_strength_index := features.away_season_ppg * features.away_season_gf
    combined_btts_probability := features.home_season_btts_rate * features.away_season_btts_rate
    combined_over25_probability :=
      features.home_season_over25_rate * features.away_season_over25_rate
    home_form_venue_boost := home_ultra_recent.points * home_season_split.home_win_rate
    away_form_venue_penalty := away_ultra_recent.points * (1 - away_season_split.away_win_rate)
    quality_ratio :=
      max features.home_season_ppg (1/100) / max features.away_season_ppg (1/100)
    expected_total_goals := expected_home_goals + expected_away_goals
    expected_goal_diff := expected_home_goals - expected_away_goals }

end Features

open Ensemble in
/-- Claim C1: for every pair of ML and GoalModel probability inputs with
non-negative entries whose weighted combination is positive, the result
triple returned by `EnsemblePredictor._combine_predictions` sums to exactly
1 after renormalization (exact arithmetic; the float computation agrees to
within 1e-9). -/
theorem C1_combine_predictions_sum_one (ml : MLFlat) (pp : PoissonPrediction)
    (h1 : 0 ≤ ml.prob_home) (h2 : 0 ≤ ml.prob_draw) (h3 : 0 ≤ ml.prob_away)
    (h4 : 0 ≤ pp.prob_home) (h5 : 0 ≤ pp.prob_draw) (h6 : 0 ≤ pp.prob_away)
    (htot : 0 < (0.70 * ml.prob_home + 0.30 * pp.prob_home) +
      (0.70 * ml.prob_draw + 0.30 * pp.prob_draw) +
      (0.70 * ml.prob_away + 0.30 * pp.prob_away)) :
    (combine_predictions ml pp).prob_home + (combine_predictions ml pp).prob_draw +
      (combine_predictions ml pp).prob_away = 1 := by
  have ht := ne_of_gt htot
  simp only [combine_predictions]
  rw [div_add_div_same, div_add_div_same, div_self ht]

/-- Witness for C1 at a concrete input. -/
theorem C1_combine_predictions_sum_one_witness :
    (0:ℝ) < (0.70 * 0.5 + 0.30 * 0.4) + (0.70 * 0.3 + 0.30 * 0.3) +
      (0.70 * 0.2 + 0.30 * 0.3) ∧
    (Ensemble.combine_predictions ⟨0.5, 0.3, 0.2, 0.6, 0.5⟩
        ⟨0.4, 0.3, 0.3, 0.5, 0.4, 1.2, 1.1, 2.3⟩).prob_home +
      (Ensemble.combine_predictions ⟨0.5, 0.3, 0.2, 0.6, 0.5⟩
        ⟨0.4, 0.3, 0.3, 0.5, 0.4, 1.2, 1.1, 2.3⟩).prob_draw +
      (Ensemble.combine_predictions ⟨0.5, 0.3, 0.2, 0.6, 0.5⟩
        ⟨0.4, 0.3, 0.3, 0.5, 0.4, 1.2, 1.1, 2.3⟩).prob_away = 1 :=
  ⟨by norm_num,
   C1_combine_predictions_sum_one _ _ (by norm_num) (by norm_num) (by norm_num)
     (by norm_num) (by norm_num) (by norm_num) (by norm_num)⟩

open Ensemble in
/-- Claim C8: if the `PoissonParams` lookup fails for either team,
`EnsemblePredictor.predict_match` does not fail: it returns the ML
probabilities tagged `method = "ml_only"` with confidence exactly 60 and
`poisson_probs = None`. -/
theorem C8_predict_match_ml_only (ml : MLFlat) (use_dixon_coles : Bool)
    (home_params away_params : Option TeamParams)
    (h : home_params = none ∨ away_params = none) :
    predict_match ml use_dixon_coles home_params away_params =
      { prob_home := ml.prob_home, prob_draw := ml.prob_draw,
        prob_away := ml.prob_away, prob_over_25 := ml.prob_over_25,
        prob_btts := ml.prob_btts, method := "ml_only", confidence := 60,
        ml_probs := ml, poisson_probs := none, lambda_home := none,
        lambda_away := none, expected_total_goals := none } := by
  have hp : predict_poisson use_dixon_coles home_params away_params = none := by
    rcases h with h | h <;> subst h
    · rfl
    · cases home_params <;> rfl
  simp [predict_match, hp]

/-- Witness for C8 at a concrete input. -/
theorem C8_predict_match_ml_only_witness :
    (none = (none : Option Ensemble.TeamParams) ∨
      some ⟨1.1, 0.9⟩ = (none : Option Ensemble.TeamParams)) ∧
    Ensemble.predict_match ⟨0.5, 0.3, 0.2, 0.6, 0.5⟩ true none (some ⟨1.1, 0.9⟩) =
      { prob_home := 0.5, prob_draw := 0.3, prob_away := 0.2,
        prob_over_25 := 0.6, prob_btts := 0.5, method := "ml_only",
        confidence := 60, ml_probs := ⟨0.5, 0.3, 0.2, 0.6, 0.5⟩,
        poisson_probs := none, lambda_home := none, lambda_away := none,
        expected_total_goals := none } :=
  ⟨Or.inl rfl, C8_predict_match_ml_only ⟨0.5, 0.3, 0.2, 0.6, 0.5⟩ true none
    (some ⟨1.1, 0.9⟩) (Or.inl rfl)⟩


/-- Helper: a team appearing in the match list has a nonempty
`goals_scored` list. -/
theorem goals_scored_ne_nil {ms : List Strengths.GoalsMatch} {t : ℕ}
    (h : ∃ m ∈ ms, m.home_team_id = t ∨ m.away_team_id = t) :
    Strengths.goals_scored ms t ≠ [] := by
  obtain ⟨m, hm, hcase⟩ := h
  refine List.ne_nil_of_mem (a := if m.home_team_id = t then m.home_goals else m.away_goals) ?_
  unfold Strengths.goals_scored
  rcases hcase with hh | ha
  · exact List.mem_flatten.2 ⟨_, List.mem_map_of_mem _ hm, by simp [hh]⟩
  · by_cases hh : m.home_team_id = t
    · exact List.mem_flatten.2 ⟨_, List.mem_map_of_mem _ hm, by simp [hh]⟩
    · exact List.mem_flatten.2 ⟨_, List.mem_map_of_mem _ hm, by simp [hh, ha]⟩

/-- Helper: a team appearing in the match list has a nonempty
`goals_conceded` list. -/
theorem goals_conceded_ne_nil {ms : List Strengths.GoalsMatch} {t : ℕ}
    (h : ∃ m ∈ ms, m.home_team_id = t ∨ m.away_team_id = t) :
    Strengths.goals_conceded ms t ≠ [] := by
  obtain ⟨m, hm, hcase⟩ := h
  refine List.ne_nil_of_mem (a := if m.home_team_id = t then m.away_goals else m.home_goals) ?_
  unfold Strengths.goals_conceded
  rcases hcase with hh | ha
  · exact List.mem_flatten.2 ⟨_, List.mem_map_of_mem _ hm, by simp [hh]⟩
  · by_cases hh : m.home_team_id = t
    · exact List.mem_flatten.2 ⟨_, List.mem_map_of_mem _ hm, by simp [hh]⟩
    · exact List.mem_flatten.2 ⟨_, List.mem_map_of_mem _ hm, by simp [hh, ha]⟩

/-- Helper: a natural-number list with zero sum has zero mean. -/
theorem meanN_eq_zero_of_sum_zero {l : List ℕ} (h : l.sum = 0) :
    Strengths.meanN l = 0 := by
  unfold Strengths.meanN
  rw [← Nat.cast_list_sum, h]
  simp

open Strengths in
/-- Claim C10: `estimate_team_strengths` clamps every attack and defense
strength at 0.3 from below, a team with zero goals scored (or conceded)
receives exactly 0.3, and consequently the mean of the returned strengths
need not equal 1 (witnessed by the single match 0-5 between teams 1 and 2,
whose attack strengths average 23/20). -/
theorem C10_team_strengths_clamped (ms : List GoalsMatch) (t : ℕ)
    (happ : ∃ m ∈ ms, m.home_team_id = t ∨ m.away_team_id = t)
    (hla : 0 < league_avg ms) :
    3/10 ≤ attack_strength ms t ∧ 3/10 ≤ defense_strength ms t ∧
    ((goals_scored ms t).sum = 0 → attack_strength ms t = 3/10) ∧
    ((goals_conceded ms t).sum = 0 → defense_strength ms t = 3/10) ∧
    (attack_strength [⟨1, 2, 0, 5⟩] 1 + attack_strength [⟨1, 2, 0, 5⟩] 2) / 2 ≠ 1 := by
  refine ⟨le_max_right _ _, le_max_right _ _, ?_, ?_, ?_⟩
  · intro hz
    have hne := goals_scored_ne_nil happ
    unfold attack_strength
    simp only [if_neg hne, meanN_eq_zero_of_sum_zero hz, zero_div]
    exact max_eq_right (by norm_num)
  · intro hz
    have hne := goals_conceded_ne_nil happ
    unfold defense_strength
    simp only [if_neg hne, meanN_eq_zero_of_sum_zero hz, zero_div]
    exact max_eq_right (by norm_num)
  · simp [attack_strength, league_avg, meanN, goals_scored, all_goals]
    norm_num

/-- Witness for C10 at a concrete input. -/
theorem C10_team_strengths_clamped_witness :
    ((∃ m ∈ [(⟨1, 2, 0, 5⟩ : Strengths.GoalsMatch)], m.home_team_id = 1 ∨ m.away_team_id = 1) ∧
      0 < Strengths.league_avg [⟨1, 2, 0, 5⟩]) ∧
    3/10 ≤ Strengths.attack_strength [⟨1, 2, 0, 5⟩] 1 :=
  ⟨⟨by decide, by simp [Strengths.league_avg, Strengths.meanN, Strengths.all_goals]⟩,
   (C10_team_strengths_clamped [⟨1, 2, 0, 5⟩] 1 (by decide)
     (by simp [Strengths.league_avg, Strengths.meanN, Strengths.all_goals])).1⟩

/-- Claim C3, counterexample: on the `get_odds.py` path the implied
probability compared against the model is the raw `1/odds`, not the
de-margined (normalized) value.  With odds (2, 3, 5) the raw home implied
probability is 1/2 while the normalized one is 15/31, and the edge produced
by `analyze_match` for the home outcome is the raw one, which differs from
the de-margined edge. -/
theorem C3_getodds_raw_implied_counterexample :
    (GetOdds.analyze_match (13/25) (1/4) (23/100) 2 3 5 1000 (1/4) (3/100)).home.implied_prob
      = 1/2 ∧
    (1/2 : ℚ) / (1/2 + 1/3 + 1/5) = 15/31 ∧
    (GetOdds.analyze_match (13/25) (1/4) (23/100) 2 3 5 1000 (1/4) (3/100)).home.edge
      = 13/25 - 1/2 ∧
    (13/25 : ℚ) - 1/2 ≠ 13/25 - 15/31 := by
  refine ⟨?_, by norm_num, ?_, by norm_num⟩ <;>
    simp [GetOdds.analyze_match, GetOdds.analyze_bet, GetOdds.calculate_implied_probability,
      GetOdds.calculate_edge]

open Ensemble GetOdds in
/-- Claim C9: the concrete value-bet scenario.  Model probabilities
(0.55, 0.25, 0.20) against decimal odds (2.10, 3.40, 4.00): the raw implied
probabilities are ≈(0.476, 0.294, 0.250) summing to ≈1.020, the de-margined
vector is ≈(0.467, 0.288, 0.245), the home edge is ≈0.083, the detector
(`ValueBetDetector.find_value_bets` at `min_edge = 0.03`) flags exactly the
home outcome, and `grade_bet` grades that edge "A". -/
theorem C9_value_bet_scenario :
    |1/(21/10 : ℚ) - 476/1000| ≤ 1/1000 ∧
    |1/(17/5 : ℚ) - 294/1000| ≤ 1/1000 ∧
    |(1/4 : ℚ) - 250/1000| ≤ 1/1000 ∧
    |(1/(21/10 : ℚ) + 1/(17/5) + 1/4) - 1020/1000| ≤ 1/1000 ∧
    |(1/(21/10 : ℚ)) / (1/(21/10) + 1/(17/5) + 1/4) - 467/1000| ≤ 1/1000 ∧
    |(1/(17/5 : ℚ)) / (1/(21/10) + 1/(17/5) + 1/4) - 288/1000| ≤ 1/1000 ∧
    |(1/4 : ℚ) / (1/(21/10) + 1/(17/5) + 1/4) - 245/1000| ≤ 1/1000 ∧
    |((11/20 : ℚ) - (1/(21/10)) / (1/(21/10) + 1/(17/5) + 1/4)) - 83/1000| ≤ 1/1000 ∧
    (find_value_bets (11/20) (1/4) (1/5) 70
      (some (21/10)) (some (17/5)) (some 4) (3/100)).map (fun b => b.market)
      = ["home_win"] ∧
    grade_bet ((11/20 : ℚ) - (1/(21/10)) / (1/(21/10) + 1/(17/5) + 1/4)) = "A" := by
  refine ⟨?_, ?_, ?_, ?_, ?_, ?_, ?_, ?_, ?_, ?_⟩
  · rw [abs_le]; constructor <;> norm_num
  · rw [abs_le]; constructor <;> norm_num
  · rw [abs_le]; constructor <;> norm_num
  · rw [abs_le]; constructor <;> norm_num
  · rw [abs_le]; constructor <;> norm_num
  · rw [abs_le]; constructor <;> norm_num
  · rw [abs_le]; constructor <;> norm_num
  · rw [abs_le]; constructor <;> norm_num
  · simp [find_value_bets, impliedOf, truthy]
    norm_num
  · norm_num [grade_bet]

/-- Helper: `round` on the rationals is monotone. -/
theorem round_q_mono {x y : ℚ} (h : x ≤ y) : round x ≤ round y := by
  rw [round_eq, round_eq]
  exact Int.floor_le_floor (by linarith)

/-- Helper: `pyRound2` is monotone. -/
theorem pyRound2_mono {x y : ℚ} (h : x ≤ y) : pyRound2 x ≤ pyRound2 y := by
  unfold pyRound2
  have := round_q_mono (mul_le_mul_of_nonneg_right h (by norm_num : (0:ℚ) ≤ 100))
  have hc : ((round (x * 100) : ℤ) : ℚ) ≤ ((round (y * 100) : ℤ) : ℚ) := by exact_mod_cast this
  linarith

/-- Helper: the raw quarter-Kelly value of `_kelly_stake` before clamping and
rounding, as a function of the model probability. -/
theorem ensemble_kelly_stake_eq (p odds : ℚ) :
    Ensemble.kelly_stake p odds (1/4) =
      pyRound2 (max 0 (min (((odds - 1) * p - (1 - p)) / (odds - 1) * (1/4)) (1/10)) * 100) := rfl

/-- Claim C6, counterexample: for probability 0.50001 at odds 2 the edge
`p - 1/odds` is strictly positive, yet `_kelly_stake` returns exactly 0
because the quarter-Kelly percentage rounds to two decimals as 0.00. -/
theorem C6_kelly_stake_zero_on_positive_edge :
    (0:ℚ) < 50001/100000 - 1/2 ∧ Ensemble.kelly_stake (50001/100000) 2 (1/4) = 0 := by
  constructor
  · norm_num
  · rw [ensemble_kelly_stake_eq]
    have h1 : ((2:ℚ) - 1) * (50001/100000) - (1 - 50001/100000) = 1/50000 := by norm_num
    rw [h1]
    have h2 : ((1:ℚ)/50000) / (2 - 1) * (1/4) = 1/200000 := by norm_num
    rw [h2]
    have h3 : min ((1:ℚ)/200000) (1/10) = 1/200000 := min_eq_left (by norm_num)
    have h4 : max (0:ℚ) (1/200000) = 1/200000 := max_eq_right (by norm_num)
    rw [h3, h4]
    unfold pyRound2
    have h5 : round ((1:ℚ)/200000 * 100 * 100) = 0 := by
      rw [round_eq]
      norm_num [Int.floor_eq_iff]
    rw [h5]
    norm_num

open Ensemble GetOdds in
/-- Claim C6, amended: for fixed decimal odds above 1 both Kelly
implementations return 0 whenever the edge `p - 1/odds` is nonpositive, are
never negative, respect their caps (10 percent of bankroll in the ensemble
path, `max_stake_pct` of bankroll in `get_odds`), and are monotonically
non-decreasing in the edge; the `get_odds` stake is strictly positive for
every positive edge, while the ensemble stake — rounded to two decimal
percentage points — is strictly positive only once the edge is large enough
(edge at least 0.001 suffices), and can round to exactly 0 for smaller
positive edges. -/
theorem C6_kelly_stake_amended (odds bankroll fraction max_stake_pct : ℚ)
    (hodds : 1 < odds) (hb : 0 < bankroll) (hf : 0 < fraction)
    (hmx : 0 < max_stake_pct) :
    (∀ p : ℚ, p - 1/odds ≤ 0 → Ensemble.kelly_stake p odds (1/4) = 0) ∧
    (∀ p : ℚ, 0 ≤ Ensemble.kelly_stake p odds (1/4)) ∧
    (∀ p : ℚ, Ensemble.kelly_stake p odds (1/4) ≤ 10) ∧
    (∀ p1 p2 : ℚ, p1 ≤ p2 →
      Ensemble.kelly_stake p1 odds (1/4) ≤ Ensemble.kelly_stake p2 odds (1/4)) ∧
    (∀ p : ℚ, 1/1000 ≤ p - 1/odds → 0 < Ensemble.kelly_stake p odds (1/4)) ∧
    (∀ p : ℚ, p - 1/odds ≤ 0 →
      (GetOdds.kelly_stake p odds bankroll fraction max_stake_pct).1 = 0) ∧
    (∀ p : ℚ, 0 < p - 1/odds →
      0 < (GetOdds.kelly_stake p odds bankroll fraction max_stake_pct).1 ∧
      (GetOdds.kelly_stake p odds bankroll fraction max_stake_pct).1 ≤
        bankroll * max_stake_pct) ∧
    (∀ p1 p2 : ℚ, p1 ≤ p2 →
      (GetOdds.kelly_stake p1 odds bankroll fraction max_stake_pct).1 ≤
      (GetOdds.kelly_stake p2 odds bankroll fraction max_stake_pct).1) := by
  have hop : (0:ℚ) < odds := lt_trans one_pos hodds
  have hb1 : (0:ℚ) < odds - 1 := by linarith
  have hnum : ∀ p : ℚ, (odds - 1) * p - (1 - p) = odds * (p - 1/odds) := by
    intro p
    field_simp
    ring
  refine ⟨?_, ?_, ?_, ?_, ?_, ?_, ?_, ?_⟩
  · -- zero when edge nonpositive
    intro p hedge
    rw [ensemble_kelly_stake_eq, hnum p]
    have hk : odds * (p - 1/odds) / (odds - 1) * (1/4) ≤ 0 := by
      have h1 : odds * (p - 1/odds) ≤ 0 := mul_nonpos_of_nonneg_of_nonpos (le_of_lt hop) hedge
      have h2 : odds * (p - 1/odds) / (odds - 1) ≤ 0 := div_nonpos_of_nonpos_of_nonneg h1 (le_of_lt hb1)
      nlinarith
    rw [min_eq_left (le_trans hk (by norm_num)), max_eq_left hk]
    unfold pyRound2
    norm_num
  · -- never negative
    intro p
    rw [ensemble_kelly_stake_eq]
    unfold pyRound2
    have h0 : (0:ℚ) ≤ max 0 (min (((odds - 1) * p - (1 - p)) / (odds - 1) * (1/4)) (1/10)) * 100 :=
      mul_nonneg (le_max_left _ _) (by norm_num)
    have h1 : (0:ℤ) ≤ round ((max 0 (min (((odds - 1) * p - (1 - p)) / (odds - 1) * (1/4)) (1/10)) * 100) * 100) := by
      have := round_q_mono (mul_nonneg h0 (by norm_num : (0:ℚ) ≤ 100))
      simpa using this
    positivity
  · -- at most 10
    intro p
    rw [ensemble_kelly_stake_eq]
    unfold pyRound2
    have h0 : max 0 (min (((odds - 1) * p - (1 - p)) / (odds - 1) * (1/4)) (1/10)) ≤ 1/10 :=
      max_le (by norm_num) (min_le_right _ _)
    have h1 : round ((max 0 (min (((odds - 1) * p - (1 - p)) / (odds - 1) * (1/4)) (1/10)) * 100) * 100) ≤ 1000 := by
      have h2 := round_q_mono (show (max 0 (min (((odds - 1) * p - (1 - p)) / (odds - 1) * (1/4)) (1/10)) * 100) * 100 ≤ 1000 by nlinarith)
      have h3 : round ((1000 : ℚ)) = 1000 := by simp
      rw [h3] at h2
      exact h2
    have h4 : ((round ((max 0 (min (((odds - 1) * p - (1 - p)) / (odds - 1) * (1/4)) (1/10)) * 100) * 100) : ℤ) : ℚ) ≤ 1000 := by exact_mod_cast h1
    linarith
  · -- monotone in the probability (hence in the edge) for fixed odds
    intro p1 p2 hp
    rw [ensemble_kelly_stake_eq, ensemble_kelly_stake_eq]
    apply pyRound2_mono
    have hnum2 : (odds - 1) * p1 - (1 - p1) ≤ (odds - 1) * p2 - (1 - p2) := by nlinarith
    have hdiv : ((odds - 1) * p1 - (1 - p1)) / (odds - 1) ≤ ((odds - 1) * p2 - (1 - p2)) / (odds - 1) :=
      (div_le_div_iff_of_pos_right hb1).mpr hnum2
    have hq : ((odds - 1) * p1 - (1 - p1)) / (odds - 1) * (1/4) ≤ ((odds - 1) * p2 - (1 - p2)) / (odds - 1) * (1/4) := by nlinarith
    exact mul_le_mul_of_nonneg_right (max_le_max (le_refl 0) (min_le_min hq (le_refl _))) (by norm_num)
  · -- strictly positive once the edge reaches 0.001
    intro p hedge
    rw [ensemble_kelly_stake_eq, hnum p]
    have hk : 1/4000 ≤ odds * (p - 1/odds) / (odds - 1) * (1/4) := by
      have h2 : (1:ℚ)/1000 ≤ odds * (p - 1/odds) / (odds - 1) := by
        rw [le_div_iff₀ hb1]
        nlinarith [mul_le_mul_of_nonneg_left hedge (le_of_lt hop)]
      linarith
    have hz : 1/4000 ≤ max 0 (min (odds * (p - 1/odds) / (odds - 1) * (1/4)) (1/10)) :=
      le_max_of_le_right (le_min hk (by norm_num))
    unfold pyRound2
    have h1 : (5/2 : ℚ) ≤ (max 0 (min (odds * (p - 1/odds) / (odds - 1) * (1/4)) (1/10)) * 100) * 100 := by
      nlinarith
    have h2 : round ((5:ℚ)/2) ≤ round ((max 0 (min (odds * (p - 1/odds) / (odds - 1) * (1/4)) (1/10)) * 100) * 100) := round_q_mono h1
    have h3 : round ((5:ℚ)/2) = 3 := by
      rw [round_eq]
      norm_num [Int.floor_eq_iff]
    rw [h3] at h2
    have h4 : (3:ℚ) ≤ ((round ((max 0 (min (odds * (p - 1/odds) / (odds - 1) * (1/4)) (1/10)) * 100) * 100) : ℤ) : ℚ) := by exact_mod_cast h2
    linarith
  · -- get_odds: zero on nonpositive edge
    intro p hedge
    unfold GetOdds.kelly_stake
    rw [if_pos]
    have hrw : p * odds - 1 = odds * (p - 1/odds) := by field_simp
    rw [hrw]
    exact mul_nonpos_of_nonneg_of_nonpos (le_of_lt hop) hedge
  · -- get_odds: strictly positive and capped on positive edge
    intro p hedge
    unfold GetOdds.kelly_stake
    have hpos : 0 < p * odds - 1 := by
      have hrw : p * odds - 1 = odds * (p - 1/odds) := by field_simp
      rw [hrw]
      exact mul_pos hop hedge
    rw [if_neg (not_le.2 hpos)]
    constructor
    · exact lt_min (by positivity) (by positivity)
    · exact min_le_right _ _
  · -- get_odds: monotone in the probability for fixed odds
    intro p1 p2 hp
    unfold GetOdds.kelly_stake
    by_cases h2 : p2 * odds - 1 ≤ 0
    · rw [if_pos (by nlinarith), if_pos h2]
    · rw [if_neg h2]
      by_cases h1 : p1 * odds - 1 ≤ 0
      · rw [if_pos h1]
        have hpos2 : 0 < p2 * odds - 1 := lt_of_not_le h2
        exact le_of_lt (lt_min (by positivity) (by positivity))
      · rw [if_neg h1]
        have hpos1 : 0 < p1 * odds - 1 := lt_of_not_le h1
        apply min_le_min _ (le_refl _)
        have hmono : (p1 * odds - 1) / (odds - 1) ≤ (p2 * odds - 1) / (odds - 1) :=
          (div_le_div_iff_of_pos_right hb1).mpr (by nlinarith)
        exact mul_le_mul_of_nonneg_right
          (mul_le_mul_of_nonneg_left hmono (le_of_lt hb)) (le_of_lt hf)

/-- Witness for the amended C6 at a concrete input. -/
theorem C6_kelly_stake_amended_witness :
    ((1:ℚ) < 2 ∧ (0:ℚ) < 1000 ∧ (0:ℚ) < 1/4 ∧ (0:ℚ) < 1/20) ∧
    0 < (GetOdds.kelly_stake (3/5) 2 1000 (1/4) (1/20)).1 :=
  ⟨⟨by norm_num, by norm_num, by norm_num, by norm_num⟩,
   (((C6_kelly_stake_amended 2 1000 (1/4) (1/20) (by norm_num) (by norm_num)
      (by norm_num) (by norm_num)).2.2.2.2.2.2.1) (3/5) (by norm_num)).1⟩
open Ensemble GetOdds in
/-- Claim C3, amended: the implied-probability normalization (de-margining)
happens on the `ValueBetDetector.find_value_bets` path of `ensemble.py` —
with all three decimal odds present and positive the vector that is
subtracted from the model probabilities is `(1/o) / Σ(1/o)`, which sums to
exactly 1 — but not on the `get_odds.py` path: `analyze_bet` (hence
`analyze_match`) compares the model probability against the raw `1/odds`. -/
theorem C3_demargin_on_ensemble_path_only (oh od oa : ℚ)
    (hh : 0 < oh) (hd : 0 < od) (ha : 0 < oa) :
    ((1/oh) / (1/oh + 1/od + 1/oa) + (1/od) / (1/oh + 1/od + 1/oa) +
      (1/oa) / (1/oh + 1/od + 1/oa) = 1) ∧
    (∀ ph pd pa c me : ℚ,
      find_value_bets ph pd pa c (some oh) (some od) (some oa) me =
        (if ph - (1/oh) / (1/oh + 1/od + 1/oa) > me then
          [{ market := "home_win", model_prob := ph,
             implied_prob := (1/oh) / (1/oh + 1/od + 1/oa),
             edge := ph - (1/oh) / (1/oh + 1/od + 1/oa), odds := some oh,
             confidence := c, recommended_stake := Ensemble.kelly_stake ph oh (1/4) }]
         else []) ++
        (if pd - (1/od) / (1/oh + 1/od + 1/oa) > me then
          [{ market := "draw", model_prob := pd,
             implied_prob := (1/od) / (1/oh + 1/od + 1/oa),
             edge := pd - (1/od) / (1/oh + 1/od + 1/oa), odds := some od,
             confidence := c, recommended_stake := Ensemble.kelly_stake pd od (1/4) }]
         else []) ++
        (if pa - (1/oa) / (1/oh + 1/od + 1/oa) > me then
          [{ market := "away_win", model_prob := pa,
             implied_prob := (1/oa) / (1/oh + 1/od + 1/oa),
             edge := pa - (1/oa) / (1/oh + 1/od + 1/oa), odds := some oa,
             confidence := c, recommended_stake := Ensemble.kelly_stake pa oa (1/4) }]
         else [])) ∧
    (∀ (p b f me : ℚ) (outcome : String),
      (analyze_bet p oh b outcome f me).implied_prob = 1/oh ∧
      (analyze_bet p oh b outcome f me).edge = p - 1/oh) := by
  have hS : 0 < 1/oh + 1/od + 1/oa := by positivity
  have hS2 := ne_of_gt hS
  refine ⟨?_, ?_, ?_⟩
  · rw [div_add_div_same, div_add_div_same, div_self hS2]
  · intro ph pd pa c me
    have hS3 : 0 < oh⁻¹ + od⁻¹ + oa⁻¹ := by positivity
    simp [find_value_bets, impliedOf, truthy, hh.ne', hd.ne', ha.ne', hS3]
  · intro p b f me outcome
    exact ⟨rfl, rfl⟩

/-- Witness for the amended C3 at a concrete input. -/
theorem C3_demargin_on_ensemble_path_only_witness :
    ((0:ℚ) < 2 ∧ (0:ℚ) < 3 ∧ (0:ℚ) < 5) ∧
    ((1/2 : ℚ) / (1/2 + 1/3 + 1/5) + (1/3) / (1/2 + 1/3 + 1/5) +
      (1/5) / (1/2 + 1/3 + 1/5) = 1) :=
  ⟨⟨by norm_num, by norm_num, by norm_num⟩,
   (C3_demargin_on_ensemble_path_only 2 3 5 (by norm_num) (by norm_num) (by norm_num)).1⟩
/-- Helper: two-sided rational bounds on the fourth root of ten. -/
theorem rpow_ten_quarter_bounds :
    (1.7782 : ℝ) < (10:ℝ) ^ ((1:ℝ)/4) ∧ (10:ℝ) ^ ((1:ℝ)/4) < 1.7783 := by
  have hy : (0:ℝ) < (10:ℝ) ^ ((1:ℝ)/4) := Real.rpow_pos_of_pos (by norm_num) _
  have hy4 : ((10:ℝ) ^ ((1:ℝ)/4)) ^ (4:ℕ) = 10 := by
    rw [← Real.rpow_natCast ((10:ℝ) ^ ((1:ℝ)/4)) 4, ← Real.rpow_mul (by norm_num : (0:ℝ) ≤ 10)]
    norm_num
  constructor
  · by_contra hle
    push_neg at hle
    have h4 : ((10:ℝ) ^ ((1:ℝ)/4)) ^ (4:ℕ) ≤ (1.7782 : ℝ) ^ (4:ℕ) :=
      pow_le_pow_left₀ (le_of_lt hy) hle 4
    rw [hy4] at h4
    norm_num at h4
  · by_contra hle
    push_neg at hle
    have h4 : (1.7783 : ℝ) ^ (4:ℕ) ≤ ((10:ℝ) ^ ((1:ℝ)/4)) ^ (4:ℕ) :=
      pow_le_pow_left₀ (by norm_num) hle 4
    rw [hy4] at h4
    norm_num at h4

/-- Helper: two-sided bounds on the Elo expected score for equal ratings 1500
with home advantage 100 — the code yields `1/(1 + 10^(-1/4)) ≈ 0.64006`. -/
theorem expected_score_1500_bounds :
    (0.64005 : ℝ) < Elo.calculate_expected_score 1500 1500 100 ∧
    Elo.calculate_expected_score 1500 1500 100 < 0.64007 := by
  obtain ⟨hy1, hy2⟩ := rpow_ten_quarter_bounds
  have hy : (0:ℝ) < (10:ℝ) ^ ((1:ℝ)/4) := Real.rpow_pos_of_pos (by norm_num) _
  have hexp : Elo.calculate_expected_score 1500 1500 100 =
      (1 + ((10:ℝ) ^ ((1:ℝ)/4))⁻¹)⁻¹ := by
    simp only [Elo.calculate_expected_score]
    rw [show (-(1500 + 100 - 1500) / 400 : ℝ) = -(1/4) by norm_num]
    rw [Real.rpow_neg (by norm_num : (0:ℝ) ≤ 10)]
    rw [one_div]
  rw [hexp]
  set y := (10:ℝ) ^ ((1:ℝ)/4) with hydef
  have hyi : y * y⁻¹ = 1 := mul_inv_cancel₀ (ne_of_gt hy)
  have ht1 : y⁻¹ < (1.7782 : ℝ)⁻¹ := by
    rw [inv_lt_inv₀ hy (by norm_num)]
    exact hy1
  have ht2 : ((1.7783 : ℝ))⁻¹ < y⁻¹ := by
    rw [inv_lt_inv₀ (by norm_num) hy]
    exact hy2
  have hpos : (0:ℝ) < 1 + y⁻¹ := by positivity
  have hE : (1 + y⁻¹) * (1 + y⁻¹)⁻¹ = 1 := mul_inv_cancel₀ (ne_of_gt hpos)
  constructor
  · nlinarith [hpos, hE, ht1, ht2]
  · nlinarith [hpos, hE, ht1, ht2]

/-- Claim C4, counterexample: the spec gives `E ≈ 0.6457` for
`calculate_expected_score(1500, 1500, 100)`, but the code computes
`1/(1 + 10^(-1/4)) ≈ 0.6401`, more than 0.005 away. -/
theorem C4_expected_score_not_06457 :
    |Elo.calculate_expected_score 1500 1500 100 - 0.6457| > 1/200 := by
  obtain ⟨h1, h2⟩ := expected_score_1500_bounds
  rw [abs_sub_comm, abs_of_pos (by linarith)]
  linarith

/-- Claim C4, amended: with ratings 1500/1500, home advantage 100, K = 30 and
a 2-0 home win, the code yields `E = 1/(1 + 10^(-1/4)) ≈ 0.6401` (not 0.6457),
`G(2) = 1.5`, the new home rating `1500 + 30 * 1.5 * (1 - E) ≈ 1516.197`, and
the away update is the mirrored loss with expected score `1 - E` and the same
multiplier, so the two new ratings sum to 3000. -/
theorem C4_elo_scenario_amended :
    (0.6400 : ℝ) < Elo.calculate_expected_score 1500 1500 100 ∧
    Elo.calculate_expected_score 1500 1500 100 < 0.6401 ∧
    Elo.calculate_goal_margin_multiplier 2 = 1.5 ∧
    Elo.calculate_new_rating 1500 (Elo.calculate_expected_score 1500 1500 100) 1 30 1.5 =
      1500 + 30 * 1.5 * (1 - Elo.calculate_expected_score 1500 1500 100) ∧
    (1516.19 : ℝ) <
      Elo.calculate_new_rating 1500 (Elo.calculate_expected_score 1500 1500 100) 1 30 1.5 ∧
    Elo.calculate_new_rating 1500 (Elo.calculate_expected_score 1500 1500 100) 1 30 1.5 <
      1516.20 ∧
    Elo.calculate_new_rating 1500 (1 - Elo.calculate_expected_score 1500 1500 100) 0 30 1.5 =
      3000 -
        Elo.calculate_new_rating 1500 (Elo.calculate_expected_score 1500 1500 100) 1 30 1.5 := by
  obtain ⟨h1, h2⟩ := expected_score_1500_bounds
  refine ⟨by linarith, by linarith, ?_, ?_, ?_, ?_, ?_⟩
  · norm_num [Elo.calculate_goal_margin_multiplier]
  · unfold Elo.calculate_new_rating
    ring
  · unfold Elo.calculate_new_rating
    nlinarith
  · unfold Elo.calculate_new_rating
    nlinarith
  · unfold Elo.calculate_new_rating
    ring
/-- Helper: `11! * 12^k ≤ (k + 11)!`. -/
theorem factorial_geom_bound (k : ℕ) :
    Nat.factorial 11 * 12 ^ k ≤ Nat.factorial (k + 11) := by
  induction k with
  | zero => simp
  | succ n ih =>
    have h1 : Nat.factorial 11 * 12 ^ (n + 1) = (Nat.factorial 11 * 12 ^ n) * 12 := by ring
    have h2 : Nat.factorial (n + 1 + 11) = (n + 12) * Nat.factorial (n + 11) := by
      rw [show n + 1 + 11 = (n + 11) + 1 by ring, Nat.factorial_succ]
    rw [h1, h2]
    calc Nat.factorial 11 * 12 ^ n * 12 ≤ Nat.factorial (n + 11) * 12 :=
          Nat.mul_le_mul_right 12 ih
      _ ≤ (n + 12) * Nat.factorial (n + 11) := by
          rw [Nat.mul_comm]
          exact Nat.mul_le_mul_right _ (by omega)
    
/-- Helper: the real exponential is the sum of its power series. -/
theorem real_exp_eq_tsum (x : ℝ) :
    Real.exp x = tsum (fun n : ℕ => x ^ n / (Nat.factorial n : ℝ)) := by
  rw [Real.exp_eq_exp_ℝ, NormedSpace.exp_eq_tsum]
  exact tsum_congr fun n => by
    rw [smul_eq_mul, div_eq_inv_mul]

/-- Helper: finite upper bound for the exponential-series tail beyond the
first eleven terms, via the geometric comparison with ratio `x / 12`. -/
theorem exp_tail_upper (x : ℝ) (h0 : 0 ≤ x) (h12 : x < 12) :
    Real.exp x - ∑ i ∈ Finset.range 11, x ^ i / (Nat.factorial i : ℝ) ≤
      x ^ 11 / (Nat.factorial 11 : ℝ) * (12 / (12 - x)) := by
  have hsum : Summable (fun n : ℕ => x ^ n / (Nat.factorial n : ℝ)) :=
    Real.summable_pow_div_factorial x
  have hshift := sum_add_tsum_nat_add 11 hsum
  have hkey : Real.exp x - ∑ i ∈ Finset.range 11, x ^ i / (Nat.factorial i : ℝ) =
      tsum (fun k : ℕ => x ^ (k + 11) / (Nat.factorial (k + 11) : ℝ)) := by
    rw [real_exp_eq_tsum x, ← hshift]
    ring
  rw [hkey]
  have hratio : (0:ℝ) ≤ x / 12 := by positivity
  have hratio1 : x / 12 < 1 := by
    rw [div_lt_one (by norm_num : (0:ℝ) < 12)]
    exact h12
  have hterm : ∀ k : ℕ, x ^ (k + 11) / (Nat.factorial (k + 11) : ℝ) ≤
      x ^ 11 / (Nat.factorial 11 : ℝ) * (x / 12) ^ k := by
    intro k
    have hfac : (Nat.factorial 11 : ℝ) * 12 ^ k ≤ ((k + 11).factorial : ℝ) := by
      exact_mod_cast factorial_geom_bound k
    have hr : x ^ 11 / (Nat.factorial 11 : ℝ) * (x / 12) ^ k =
        x ^ (k + 11) / ((Nat.factorial 11 : ℝ) * 12 ^ k) := by
      rw [pow_add, div_pow, div_mul_div_comm]
      ring
    rw [hr]
    exact div_le_div_of_nonneg_left (by positivity) (by positivity) hfac
  have hgeo : Summable (fun k : ℕ => x ^ 11 / (Nat.factorial 11 : ℝ) * (x / 12) ^ k) :=
    (summable_geometric_of_lt_one hratio hratio1).mul_left _
  have hsub : Summable (fun k : ℕ => x ^ (k + 11) / (Nat.factorial (k + 11) : ℝ)) :=
    (summable_nat_add_iff 11).2 hsum
  calc tsum (fun k : ℕ => x ^ (k + 11) / (Nat.factorial (k + 11) : ℝ))
      ≤ tsum (fun k : ℕ => x ^ 11 / (Nat.factorial 11 : ℝ) * (x / 12) ^ k) :=
        tsum_le_tsum hterm hsub hgeo
    _ = x ^ 11 / (Nat.factorial 11 : ℝ) * (1 - x / 12)⁻¹ := by
        rw [tsum_mul_left, tsum_geometric_of_lt_one hratio hratio1]
    _ = x ^ 11 / (Nat.factorial 11 : ℝ) * (12 / (12 - x)) := by
        rw [show (1 : ℝ) - x / 12 = (12 - x) / 12 by ring]
        rw [inv_div]

/-- Helper: lower bound for the same tail by the next two series terms. -/
theorem exp_tail_lower (x : ℝ) (h0 : 0 ≤ x) :
    x ^ 11 / (Nat.factorial 11 : ℝ) + x ^ 12 / (Nat.factorial 12 : ℝ) ≤
      Real.exp x - ∑ i ∈ Finset.range 11, x ^ i / (Nat.factorial i : ℝ) := by
  have h13 := Real.sum_le_exp_of_nonneg h0 13
  have hexp : ∑ i ∈ Finset.range 13, x ^ i / (Nat.factorial i : ℝ) =
      (∑ i ∈ Finset.range 11, x ^ i / (Nat.factorial i : ℝ)) +
        x ^ 11 / (Nat.factorial 11 : ℝ) + x ^ 12 / (Nat.factorial 12 : ℝ) := by
    rw [Finset.sum_range_succ, Finset.sum_range_succ]
  linarith

/-- Helper: `x ^ 11 * exp (−x)` is monotone below 2.4: at any `x ∈ [0, 2.4]`
it is at most its value at 2.4. -/
theorem pow11_mul_exp_neg_le (x : ℝ) (h0 : 0 ≤ x) (h24 : x ≤ 2.4) :
    x ^ 11 * Real.exp (-x) ≤ (2.4:ℝ) ^ 11 * Real.exp (-2.4) := by
  have hq : (0:ℝ) ≤ x / 2.4 := by positivity
  have h1 : x / 2.4 ≤ Real.exp ((x - 2.4) / 2.4) := by
    have := Real.add_one_le_exp ((x - 2.4) / 2.4)
    have hx : (x - 2.4) / 2.4 + 1 = x / 2.4 := by ring
    linarith [hx ▸ this]
  have h2 : (x / 2.4) ^ 11 ≤ Real.exp ((x - 2.4) / 2.4) ^ 11 :=
    pow_le_pow_left₀ hq h1 11
  have h3 : Real.exp ((x - 2.4) / 2.4) ^ 11 = Real.exp (11 * ((x - 2.4) / 2.4)) := by
    rw [← Real.exp_nat_mul]
    norm_num
  have h4 : Real.exp (11 * ((x - 2.4) / 2.4)) ≤ Real.exp (x - 2.4) := by
    apply Real.exp_le_exp.2
    have hr : 11 * ((x - 2.4) / 2.4) = (11 / 2.4) * (x - 2.4) := by ring
    rw [hr]
    nlinarith
  have h5 : (x / 2.4) ^ 11 ≤ Real.exp (x - 2.4) := by
    rw [h3] at h2
    linarith
  have hpow : (x / 2.4) ^ 11 * (2.4:ℝ) ^ 11 = x ^ 11 := by
    rw [div_pow]
    rw [div_mul_cancel₀ _ (by positivity : ((2.4:ℝ) ^ 11) ≠ 0)]
  have h6 : x ^ 11 ≤ (2.4:ℝ) ^ 11 * Real.exp (x - 2.4) := by
    have h6a := mul_le_mul_of_nonneg_right h5 (by positivity : (0:ℝ) ≤ (2.4:ℝ) ^ 11)
    rw [hpow] at h6a
    linarith
  have h7 : Real.exp (x - 2.4) * Real.exp (-x) = Real.exp (-2.4) := by
    rw [← Real.exp_add, show x - 2.4 + -x = (-2.4:ℝ) by ring]
  have h8 : (0:ℝ) < Real.exp (-x) := Real.exp_pos _
  have h9 := mul_le_mul_of_nonneg_right h6 (le_of_lt h8)
  rw [mul_assoc, h7] at h9
  exact h9

/-- Helper: `10.89 ≤ exp 2.4`, from the first seven series terms. -/
theorem exp_24_lower : (10.89:ℝ) ≤ Real.exp 2.4 := by
  have h := Real.sum_le_exp_of_nonneg (by norm_num : (0:ℝ) ≤ 2.4) 7
  have hsum : ∑ i ∈ Finset.range 7, (2.4:ℝ) ^ i / (Nat.factorial i : ℝ) =
      1 + 2.4 + 2.4^2/2 + 2.4^3/6 + 2.4^4/24 + 2.4^5/120 + 2.4^6/720 := by
    simp [Finset.sum_range_succ, Nat.factorial]
  rw [hsum] at h
  nlinarith
/-- Helper: the truncated Poisson mass written through the series partial
sum. -/
theorem pmf_sum_eq (lam : ℝ) (n : ℕ) :
    ∑ i ∈ Finset.range n, Poisson.pmf lam i =
      Real.exp (-lam) * ∑ i ∈ Finset.range n, lam ^ i / (Nat.factorial i : ℝ) := by
  rw [Finset.mul_sum]
  refine Finset.sum_congr rfl fun i _ => ?_
  unfold Poisson.pmf
  ring

/-- Helper: the truncated Poisson mass is at most 1. -/
theorem pmf_sum_le_one (lam : ℝ) (h0 : 0 ≤ lam) (n : ℕ) :
    ∑ i ∈ Finset.range n, Poisson.pmf lam i ≤ 1 := by
  rw [pmf_sum_eq]
  have hA := Real.sum_le_exp_of_nonneg h0 n
  have he : Real.exp (-lam) * Real.exp lam = 1 := by
    rw [← Real.exp_add]
    simp
  have hpos : (0:ℝ) < Real.exp (-lam) := Real.exp_pos _
  nlinarith [mul_le_mul_of_nonneg_left hA (le_of_lt hpos)]

/-- Helper: the truncated Poisson mass is nonnegative. -/
theorem pmf_sum_nonneg (lam : ℝ) (h0 : 0 ≤ lam) (n : ℕ) :
    0 ≤ ∑ i ∈ Finset.range n, Poisson.pmf lam i := by
  refine Finset.sum_nonneg fun i _ => ?_
  unfold Poisson.pmf
  positivity

/-- Helper: for rates up to 2.4 the Poisson mass beyond 10 goals is below
0.00005. -/
theorem pmf_tail_le (lam : ℝ) (h0 : 0 ≤ lam) (h24 : lam ≤ 2.4) :
    1 - ∑ i ∈ Finset.range 11, Poisson.pmf lam i ≤ 5/100000 := by
  rw [pmf_sum_eq]
  have hA := exp_tail_upper lam h0 (by linarith)
  have hAle := Real.sum_le_exp_of_nonneg h0 11
  have hpos : (0:ℝ) < Real.exp (-lam) := Real.exp_pos _
  have he : Real.exp (-lam) * Real.exp lam = 1 := by
    rw [← Real.exp_add]
    simp
  have hfac : (Nat.factorial 11 : ℝ) = 39916800 := by norm_num [Nat.factorial]
  have hfrac : 12 / (12 - lam) ≤ 1.25 := by
    rw [div_le_iff₀ (by linarith : (0:ℝ) < 12 - lam)]
    nlinarith
  have hmono := pow11_mul_exp_neg_le lam h0 h24
  have he24 : Real.exp (-2.4) ≤ 1/10.89 := by
    rw [Real.exp_neg]
    rw [inv_le_comm₀ (Real.exp_pos _) (by norm_num)]
    have hinv : ((1:ℝ)/10.89)⁻¹ = 10.89 := by norm_num
    rw [hinv]
    exact exp_24_lower
  -- 1 - e^(-lam) * A = e^(-lam) * (e^lam - A) ≤ e^(-lam) * tailbound
  have hstep1 : 1 - Real.exp (-lam) * ∑ i ∈ Finset.range 11, lam ^ i / (Nat.factorial i : ℝ) =
      Real.exp (-lam) * (Real.exp lam - ∑ i ∈ Finset.range 11, lam ^ i / (Nat.factorial i : ℝ)) := by
    rw [mul_sub, he]
  rw [hstep1]
  have hstep2 : Real.exp (-lam) *
      (Real.exp lam - ∑ i ∈ Finset.range 11, lam ^ i / (Nat.factorial i : ℝ)) ≤
      Real.exp (-lam) * (lam ^ 11 / (Nat.factorial 11 : ℝ) * (12 / (12 - lam))) :=
    mul_le_mul_of_nonneg_left hA (le_of_lt hpos)
  have htail0 : 0 ≤ lam ^ 11 / (Nat.factorial 11 : ℝ) := by positivity
  have hstep3 : Real.exp (-lam) * (lam ^ 11 / (Nat.factorial 11 : ℝ) * (12 / (12 - lam))) ≤
      Real.exp (-lam) * (lam ^ 11 / (Nat.factorial 11 : ℝ) * 1.25) := by
    have := mul_le_mul_of_nonneg_left hfrac htail0
    have := mul_le_mul_of_nonneg_left this (le_of_lt hpos)
    calc Real.exp (-lam) * (lam ^ 11 / (Nat.factorial 11 : ℝ) * (12 / (12 - lam)))
        = Real.exp (-lam) * (lam ^ 11 / (Nat.factorial 11 : ℝ) * (12 / (12 - lam))) := rfl
      _ ≤ Real.exp (-lam) * (lam ^ 11 / (Nat.factorial 11 : ℝ) * 1.25) := by nlinarith [hpos, hfrac, htail0]
  have hstep4 : Real.exp (-lam) * (lam ^ 11 / (Nat.factorial 11 : ℝ) * 1.25) =
      lam ^ 11 * Real.exp (-lam) * 1.25 / (Nat.factorial 11 : ℝ) := by ring
  have hstep5 : lam ^ 11 * Real.exp (-lam) * 1.25 / (Nat.factorial 11 : ℝ) ≤
      (2.4:ℝ) ^ 11 * Real.exp (-2.4) * 1.25 / (Nat.factorial 11 : ℝ) := by
    rw [hfac]
    have h125 : lam ^ 11 * Real.exp (-lam) * 1.25 ≤ (2.4:ℝ) ^ 11 * Real.exp (-2.4) * 1.25 := by
      nlinarith
    linarith [div_le_div_of_nonneg_right h125 (by norm_num : (0:ℝ) ≤ 39916800)]
  have hstep6 : (2.4:ℝ) ^ 11 * Real.exp (-2.4) * 1.25 / (Nat.factorial 11 : ℝ) ≤ 5/100000 := by
    rw [hfac]
    have hb : (2.4:ℝ) ^ 11 * Real.exp (-2.4) * 1.25 ≤ (2.4:ℝ) ^ 11 * (1/10.89) * 1.25 := by
      have h2 : (0:ℝ) ≤ (2.4:ℝ) ^ 11 := by positivity
      nlinarith
    have hc : (2.4:ℝ) ^ 11 * (1/10.89) * 1.25 / 39916800 ≤ 5/100000 := by norm_num
    calc (2.4:ℝ) ^ 11 * Real.exp (-2.4) * 1.25 / 39916800
        ≤ (2.4:ℝ) ^ 11 * (1/10.89) * 1.25 / 39916800 :=
          div_le_div_of_nonneg_right hb (by norm_num : (0:ℝ) ≤ 39916800)
      _ ≤ 5/100000 := hc
  linarith [hstep2, hstep3, hstep4 ▸ hstep5, hstep6]
/-- Helper: the truncated score matrix of the plain Poisson model factors as
the product of the two marginal truncated masses. -/
theorem matrix_sum_factor (lh la : ℝ) (mg : ℕ) :
    Poisson.matrix_sum (Poisson.predict_score_probability lh la) mg =
      (∑ i ∈ Finset.range (mg+1), Poisson.pmf lh i) *
        (∑ j ∈ Finset.range (mg+1), Poisson.pmf la j) := by
  unfold Poisson.matrix_sum Poisson.grid Poisson.predict_score_probability
  rw [Finset.sum_product]
  exact (Finset.sum_mul_sum _ _ _ _).symm

/-- Helper: the home-win, draw and away-win triangular sums partition the
truncated score matrix. -/
theorem hda_partition (score : ℕ → ℕ → ℝ) (lh la : ℝ) (mg : ℕ) :
    (Poisson.predict_match_outcome score lh la mg).home_win +
      (Poisson.predict_match_outcome score lh la mg).draw +
      (Poisson.predict_match_outcome score lh la mg).away_win =
      Poisson.matrix_sum score mg := by
  simp only [Poisson.predict_match_outcome, Poisson.matrix_sum]
  have hsplit1 := Finset.sum_filter_add_sum_filter_not (Poisson.grid mg)
    (fun p => p.2 < p.1) (fun p => score p.1 p.2)
  have hsplit2 := Finset.sum_filter_add_sum_filter_not
    ((Poisson.grid mg).filter (fun p => ¬ p.2 < p.1))
    (fun p => p.1 < p.2) (fun p => score p.1 p.2)
  rw [Finset.filter_filter, Finset.filter_filter] at hsplit2
  have e1 : (Poisson.grid mg).filter (fun p => ¬ p.2 < p.1 ∧ p.1 < p.2) =
      (Poisson.grid mg).filter (fun p => p.1 < p.2) := by
    ext p
    simp only [Finset.mem_filter, and_congr_right_iff]
    intro _
    omega
  have e2 : (Poisson.grid mg).filter (fun p => ¬ p.2 < p.1 ∧ ¬ p.1 < p.2) =
      (Poisson.grid mg).filter (fun p => p.1 = p.2) := by
    ext p
    simp only [Finset.mem_filter, and_congr_right_iff]
    intro _
    omega
  rw [e1, e2] at hsplit2
  linarith [hsplit1, hsplit2]

/-- Helper: the four Dixon-Coles corrections cancel exactly, so the
Dixon-Coles truncated matrix has the same total mass as the plain Poisson
matrix (for any correlation parameter). -/
theorem dc_matrix_sum_eq (rho lh la : ℝ) (mg : ℕ) (hmg : 1 ≤ mg) :
    Poisson.matrix_sum (Poisson.dc_score_probability rho lh la) mg =
      Poisson.matrix_sum (Poisson.predict_score_probability lh la) mg := by
  unfold Poisson.matrix_sum
  rw [← sub_eq_zero, ← Finset.sum_sub_distrib]
  have hsupp : ∀ p ∈ Poisson.grid mg,
      p ∉ ({(0,0), (1,0), (0,1), (1,1)} : Finset (ℕ × ℕ)) →
      Poisson.dc_score_probability rho lh la p.1 p.2 -
        Poisson.predict_score_probability lh la p.1 p.2 = 0 := by
    intro p _ hp
    simp only [Finset.mem_insert, Finset.mem_singleton] at hp
    push_neg at hp
    obtain ⟨h1, h2, h3, h4⟩ := hp
    have h1p : ¬ (p.1 = 0 ∧ p.2 = 0) := fun hcase => h1 (Prod.ext_iff.mpr hcase)
    have h2p : ¬ (p.1 = 1 ∧ p.2 = 0) := fun hcase => h2 (Prod.ext_iff.mpr hcase)
    have h3p : ¬ (p.1 = 0 ∧ p.2 = 1) := fun hcase => h3 (Prod.ext_iff.mpr hcase)
    have h4p : ¬ (p.1 = 1 ∧ p.2 = 1) := fun hcase => h4 (Prod.ext_iff.mpr hcase)
    unfold Poisson.dc_score_probability Poisson.tau_correction
    rw [if_neg h1p, if_neg h2p, if_neg h3p, if_neg h4p]
    ring
  have hsub : ({(0,0), (1,0), (0,1), (1,1)} : Finset (ℕ × ℕ)) ⊆ Poisson.grid mg := by
    intro p hp
    simp only [Finset.mem_insert, Finset.mem_singleton] at hp
    unfold Poisson.grid
    rcases hp with h | h | h | h <;> subst h <;>
      simp only [Finset.mem_product, Finset.mem_range] <;> omega
  rw [← Finset.sum_subset hsub hsupp]
  rw [Finset.sum_insert (by decide), Finset.sum_insert (by decide),
    Finset.sum_insert (by decide), Finset.sum_singleton]
  unfold Poisson.dc_score_probability Poisson.tau_correction
    Poisson.predict_score_probability Poisson.pmf
  norm_num [Nat.factorial]
  ring
/-- Helper: `exp 2.7 ≤ 15.45`. -/
theorem exp_27_upper : Real.exp 2.7 ≤ 15.45 := by
  have h1 : Real.exp 2.7 = Real.exp 1 * Real.exp 1 * Real.exp 0.7 := by
    rw [← Real.exp_add, ← Real.exp_add]
    norm_num
  have h0 : (0:ℝ) < Real.exp 1 := Real.exp_pos _
  have h07pos : (0:ℝ) < Real.exp 0.7 := Real.exp_pos _
  have h07 : Real.exp 0.7 ≤ (10/9 : ℝ) ^ (7:ℕ) := by
    have hx : Real.exp 0.7 = Real.exp 0.1 ^ (7:ℕ) := by
      rw [← Real.exp_nat_mul]
      norm_num
    have h01 : Real.exp 0.1 ≤ 10/9 := by
      have hneg := Real.add_one_le_exp (-0.1 : ℝ)
      have h09 : (0.9:ℝ) ≤ Real.exp (-0.1) := by linarith
      have hprod : Real.exp 0.1 * Real.exp (-0.1) = 1 := by
        rw [← Real.exp_add]
        norm_num
      nlinarith
    rw [hx]
    exact pow_le_pow_left₀ (le_of_lt (Real.exp_pos _)) h01 7
  have he1 := Real.exp_one_lt_d9
  have s1 : Real.exp 1 * Real.exp 1 ≤ (2.7182818286:ℝ) * 2.7182818286 :=
    mul_le_mul (le_of_lt he1) (le_of_lt he1) (le_of_lt h0) (by norm_num)
  have s2 : Real.exp 1 * Real.exp 1 * Real.exp 0.7 ≤
      (2.7182818286:ℝ) * 2.7182818286 * (10/9 : ℝ) ^ (7:ℕ) :=
    mul_le_mul s1 h07 (le_of_lt h07pos) (by positivity)
  rw [h1]
  calc Real.exp 1 * Real.exp 1 * Real.exp 0.7
      ≤ (2.7182818286:ℝ) * 2.7182818286 * (10/9 : ℝ) ^ (7:ℕ) := s2
    _ ≤ 15.45 := by norm_num

/-- Helper: at rate 2.7 (the league-average expected goals per side) the
Poisson mass beyond 10 goals exceeds 0.000103. -/
theorem pmf_tail_27_lower :
    103/1000000 ≤ 1 - ∑ i ∈ Finset.range 11, Poisson.pmf 2.7 i := by
  rw [pmf_sum_eq]
  have hlow := exp_tail_lower 2.7 (by norm_num)
  have hpos : (0:ℝ) < Real.exp (-2.7) := Real.exp_pos _
  have he : Real.exp (-2.7) * Real.exp 2.7 = 1 := by
    rw [← Real.exp_add]
    norm_num
  have hstep1 : 1 - Real.exp (-2.7) * ∑ i ∈ Finset.range 11, (2.7:ℝ) ^ i / (Nat.factorial i : ℝ) =
      Real.exp (-2.7) *
        (Real.exp 2.7 - ∑ i ∈ Finset.range 11, (2.7:ℝ) ^ i / (Nat.factorial i : ℝ)) := by
    rw [mul_sub, he]
  rw [hstep1]
  have hexplow : (1:ℝ)/15.45 ≤ Real.exp (-2.7) := by
    rw [Real.exp_neg, ← one_div]
    exact one_div_le_one_div_of_le (Real.exp_pos _) exp_27_upper
  have hterms : (0:ℝ) ≤ (2.7:ℝ) ^ 11 / (Nat.factorial 11 : ℝ) +
      (2.7:ℝ) ^ 12 / (Nat.factorial 12 : ℝ) := by positivity
  have hmul : (1:ℝ)/15.45 * ((2.7:ℝ) ^ 11 / (Nat.factorial 11 : ℝ) +
      (2.7:ℝ) ^ 12 / (Nat.factorial 12 : ℝ)) ≤
      Real.exp (-2.7) *
        (Real.exp 2.7 - ∑ i ∈ Finset.range 11, (2.7:ℝ) ^ i / (Nat.factorial i : ℝ)) := by
    apply mul_le_mul hexplow hlow hterms (le_of_lt hpos)
  have hnum : (103:ℝ)/1000000 ≤ (1:ℝ)/15.45 * ((2.7:ℝ) ^ 11 / (Nat.factorial 11 : ℝ) +
      (2.7:ℝ) ^ 12 / (Nat.factorial 12 : ℝ)) := by
    have hf11 : (Nat.factorial 11 : ℝ) = 39916800 := by norm_num [Nat.factorial]
    have hf12 : (Nat.factorial 12 : ℝ) = 479001600 := by norm_num [Nat.factorial]
    rw [hf11, hf12]
    norm_num
  linarith

/-- Claim C5, counterexample: at `λ_home = λ_away = 2.7` — the model's own
league-average rate, so squarely inside its intended range — the truncated
(`max_goals = 10`) home/draw/away probabilities of
`PoissonModel.predict_match_outcome` sum to less than `1 − 1e-4`, and so does
the full truncated score matrix: the stated 1e-4 tolerance fails. -/
theorem C5_truncation_error_at_27 :
    (Poisson.poisson_match_outcome 2.7 2.7 10).home_win +
      (Poisson.poisson_match_outcome 2.7 2.7 10).draw +
      (Poisson.poisson_match_outcome 2.7 2.7 10).away_win < 1 - 1/10000 ∧
    Poisson.matrix_sum (Poisson.predict_score_probability 2.7 2.7) 10 < 1 - 1/10000 := by
  have hS0 : 0 ≤ ∑ i ∈ Finset.range 11, Poisson.pmf 2.7 i :=
    pmf_sum_nonneg 2.7 (by norm_num) 11
  have hS1 : ∑ i ∈ Finset.range 11, Poisson.pmf 2.7 i ≤ 1 :=
    pmf_sum_le_one 2.7 (by norm_num) 11
  have htail := pmf_tail_27_lower
  have hm : Poisson.matrix_sum (Poisson.predict_score_probability 2.7 2.7) 10 =
      (∑ i ∈ Finset.range 11, Poisson.pmf 2.7 i) *
        (∑ j ∈ Finset.range 11, Poisson.pmf 2.7 j) := matrix_sum_factor 2.7 2.7 10
  have hmlt : Poisson.matrix_sum (Poisson.predict_score_probability 2.7 2.7) 10 < 1 - 1/10000 := by
    rw [hm]
    nlinarith
  refine ⟨?_, hmlt⟩
  have hhda := hda_partition (Poisson.predict_score_probability 2.7 2.7) 2.7 2.7 10
  unfold Poisson.poisson_match_outcome
  rw [hhda]
  exact hmlt
/-- Claim C5, amended: for expected-goal rates up to 2.4 per side (rates
above ≈2.5 violate the 1e-4 tolerance, see the counterexample at 2.7) and
any correlation parameter, both the plain Poisson model and the Dixon-Coles
model produce home/draw/away probabilities summing to 1 within 1e-4 at
`max_goals = 10`, the full truncated score matrix likewise sums to 1 within
1e-4, the Dixon-Coles τ correction rescales only the four cells
(0,0), (1,0), (0,1), (1,1) and leaves the total truncated mass exactly
unchanged. -/
theorem C5_truncated_sums_amended (lamh lama rho : ℝ)
    (hh0 : 0 ≤ lamh) (hh : lamh ≤ 2.4) (ha0 : 0 ≤ lama) (ha : lama ≤ 2.4) :
    |((Poisson.poisson_match_outcome lamh lama 10).home_win +
      (Poisson.poisson_match_outcome lamh lama 10).draw +
      (Poisson.poisson_match_outcome lamh lama 10).away_win) - 1| ≤ 1/10000 ∧
    |Poisson.matrix_sum (Poisson.predict_score_probability lamh lama) 10 - 1| ≤ 1/10000 ∧
    |((Poisson.dc_match_outcome rho lamh lama 10).home_win +
      (Poisson.dc_match_outcome rho lamh lama 10).draw +
      (Poisson.dc_match_outcome rho lamh lama 10).away_win) - 1| ≤ 1/10000 ∧
    Poisson.matrix_sum (Poisson.dc_score_probability rho lamh lama) 10 =
      Poisson.matrix_sum (Poisson.predict_score_probability lamh lama) 10 ∧
    Poisson.tau_correction rho lamh lama 0 0 = 1 - lamh * lama * rho ∧
    Poisson.tau_correction rho lamh lama 1 0 = 1 + lama * rho ∧
    Poisson.tau_correction rho lamh lama 0 1 = 1 + lamh * rho ∧
    Poisson.tau_correction rho lamh lama 1 1 = 1 - rho ∧
    (∀ x y : ℕ, ¬(x ≤ 1 ∧ y ≤ 1) → Poisson.tau_correction rho lamh lama x y = 1) := by
  have hS10 : 0 ≤ ∑ i ∈ Finset.range 11, Poisson.pmf lamh i := pmf_sum_nonneg lamh hh0 11
  have hS11 : ∑ i ∈ Finset.range 11, Poisson.pmf lamh i ≤ 1 := pmf_sum_le_one lamh hh0 11
  have hS20 : 0 ≤ ∑ i ∈ Finset.range 11, Poisson.pmf lama i := pmf_sum_nonneg lama ha0 11
  have hS21 : ∑ i ∈ Finset.range 11, Poisson.pmf lama i ≤ 1 := pmf_sum_le_one lama ha0 11
  have ht1 := pmf_tail_le lamh hh0 hh
  have ht2 := pmf_tail_le lama ha0 ha
  have hm := matrix_sum_factor lamh lama 10
  have hbound : |Poisson.matrix_sum (Poisson.predict_score_probability lamh lama) 10 - 1|
      ≤ 1/10000 := by
    rw [hm, abs_le]
    constructor
    · nlinarith
    · nlinarith
  have hdc := dc_matrix_sum_eq rho lamh lama 10 (by norm_num)
  refine ⟨?_, hbound, ?_, hdc, ?_, ?_, ?_, ?_, ?_⟩
  · unfold Poisson.poisson_match_outcome
    rw [hda_partition]
    exact hbound
  · unfold Poisson.dc_match_outcome
    rw [hda_partition, hdc]
    exact hbound
  · norm_num [Poisson.tau_correction]
  · norm_num [Poisson.tau_correction]
  · norm_num [Poisson.tau_correction]
  · norm_num [Poisson.tau_correction]
  · intro x y hxy
    unfold Poisson.tau_correction
    rw [if_neg (by omega), if_neg (by omega), if_neg (by omega), if_neg (by omega)]

/-- Witness for the amended C5 at a concrete input. -/
theorem C5_truncated_sums_amended_witness :
    ((0:ℝ) ≤ 1.2 ∧ (1.2:ℝ) ≤ 2.4 ∧ (0:ℝ) ≤ 1.1 ∧ (1.1:ℝ) ≤ 2.4) ∧
    |Poisson.matrix_sum (Poisson.predict_score_probability 1.2 1.1) 10 - 1| ≤ 1/10000 :=
  ⟨⟨by norm_num, by norm_num, by norm_num, by norm_num⟩,
   (C5_truncated_sums_amended 1.2 1.1 (-0.13) (by norm_num) (by norm_num)
     (by norm_num) (by norm_num)).2.1⟩
/-- Helper: at `max_goals = 10` the `prob_matrix[0:2, 0:2]` block sum behind
`over_25` consists of exactly the four cells 0-0, 0-1, 1-0 and 1-1. -/
theorem over25_block_eq (score : ℕ → ℕ → ℝ) (lh la : ℝ) :
    (Poisson.predict_match_outcome score lh la 10).over_25 =
      1 - (score 0 0 + score 0 1 + score 1 0 + score 1 1) := by
  simp only [Poisson.predict_match_outcome]
  have hmin : min 2 (10 + 1) = 2 := by norm_num
  rw [hmin]
  rw [Finset.sum_product]
  simp [Finset.sum_range_succ]
  ring

/-- Helper: the cumulative mass of scorelines with at most two total goals
inside the truncated matrix consists of exactly six cells, including 0-2 and
2-0. -/
theorem under_mass_2_eq (score : ℕ → ℕ → ℝ) :
    Poisson.under_mass score 10 2 =
      score 0 0 + score 0 1 + score 0 2 + score 1 0 + score 1 1 + score 2 0 := by
  unfold Poisson.under_mass
  have hset : (Poisson.grid 10).filter (fun p => p.1 + p.2 ≤ 2) =
      ({(0,0), (0,1), (0,2), (1,0), (1,1), (2,0)} : Finset (ℕ × ℕ)) := by decide
  rw [hset]
  rw [Finset.sum_insert (by decide), Finset.sum_insert (by decide),
    Finset.sum_insert (by decide), Finset.sum_insert (by decide),
    Finset.sum_insert (by decide), Finset.sum_singleton]
  ring

/-- Claim C2: the `over_25`/`under_25` computation of
`PoissonModel.predict_match_outcome` does not follow the goal-total
threshold semantics: the block slice `prob_matrix[0:2, 0:2]` omits the
scorelines 2-0 and 0-2 (goal total 2), which carry strictly positive
probability for positive rates, so the under-2.5 mass is understated and
`over_25` overstated by exactly those two cells.  (The BTTS
inclusion-exclusion and the other thresholds are as specified; the
`under_35` loop in the very same function uses the correct `i + j ≤ 3`
criterion, and `compare_models_accuracy` scores `over_25` against actual
total goals above 2.5, confirming the intent.) -/
theorem C2_under25_omits_two_goal_scorelines (lamh lama : ℝ)
    (hh : 0 < lamh) (ha : 0 < lama) :
    1 - (Poisson.poisson_match_outcome lamh lama 10).over_25 +
      (Poisson.predict_score_probability lamh lama 2 0 +
        Poisson.predict_score_probability lamh lama 0 2) =
      Poisson.under_mass (Poisson.predict_score_probability lamh lama) 10 2 ∧
    0 < Poisson.predict_score_probability lamh lama 2 0 +
        Poisson.predict_score_probability lamh lama 0 2 := by
  constructor
  · unfold Poisson.poisson_match_outcome
    rw [over25_block_eq, under_mass_2_eq]
    ring
  · unfold Poisson.predict_score_probability Poisson.pmf
    have h1 : (0:ℝ) < lamh ^ 2 * Real.exp (-lamh) / (Nat.factorial 2 : ℝ) := by positivity
    have h2 : (0:ℝ) < lama ^ 0 * Real.exp (-lama) / (Nat.factorial 0 : ℝ) := by positivity
    have h3 : (0:ℝ) < lamh ^ 0 * Real.exp (-lamh) / (Nat.factorial 0 : ℝ) := by positivity
    have h4 : (0:ℝ) < lama ^ 2 * Real.exp (-lama) / (Nat.factorial 2 : ℝ) := by positivity
    positivity

/-- Witness for C2 at a concrete input. -/
theorem C2_under25_omits_two_goal_scorelines_witness :
    ((0:ℝ) < 1 ∧ (0:ℝ) < 1) ∧
    0 < Poisson.predict_score_probability 1 1 2 0 +
        Poisson.predict_score_probability 1 1 0 2 :=
  ⟨⟨by norm_num, by norm_num⟩,
   (C2_under25_omits_two_goal_scorelines 1 1 (by norm_num) (by norm_num)).2⟩
/-- Helper: every dated queryset filter of the feature pipeline factors
through the strictly-past part of the match table, so two tables agreeing on
their past rows give identical query results. -/
theorem pastFilter_congr {db1 db2 : List Features.MatchRow} {t : ℤ}
    (h : db1.filter (fun m => decide (m.utc_date < t)) =
         db2.filter (fun m => decide (m.utc_date < t)))
    (p : Features.MatchRow → Bool) :
    Features.pastFilter db1 p t = Features.pastFilter db2 p t := by
  simp only [Features.pastFilter]
  rw [← List.filter_filter, ← List.filter_filter, h]

section FeatureNI

variable {db1 db2 : List Features.MatchRow} {t : ℤ}

/-- Helper: `get_team_form` is insensitive to rows dated at or after the
cutoff. -/
theorem get_team_form_ni
    (h : db1.filter (fun m => decide (m.utc_date < t)) =
         db2.filter (fun m => decide (m.utc_date < t))) :
    ∀ (team_id n : ℕ),
      Features.get_team_form db1 team_id t n = Features.get_team_form db2 team_id t n := by
  intro team_id n
  simp only [Features.get_team_form]
  rw [pastFilter_congr h]

/-- Helper: `get_home_away_form` is insensitive to rows dated at or after
the cutoff. -/
theorem get_home_away_form_ni
    (h : db1.filter (fun m => decide (m.utc_date < t)) =
         db2.filter (fun m => decide (m.utc_date < t))) :
    ∀ (team_id : ℕ) (is_home : Bool) (n : ℕ),
      Features.get_home_away_form db1 team_id t is_home n =
        Features.get_home_away_form db2 team_id t is_home n := by
  intro team_id is_home n
  simp only [Features.get_home_away_form]
  rw [pastFilter_congr h]

/-- Helper: `get_head_to_head` is insensitive to rows dated at or after the
cutoff. -/
theorem get_head_to_head_ni
    (h : db1.filter (fun m => decide (m.utc_date < t)) =
         db2.filter (fun m => decide (m.utc_date < t))) :
    ∀ (t1 t2 n : ℕ),
      Features.get_head_to_head db1 t1 t2 t n = Features.get_head_to_head db2 t1 t2 t n := by
  intro t1 t2 n
  simp only [Features.get_head_to_head]
  rw [pastFilter_congr h]

/-- Helper: `get_season_stats` is insensitive to rows dated at or after the
cutoff. -/
theorem get_season_stats_ni
    (h : db1.filter (fun m => decide (m.utc_date < t)) =
         db2.filter (fun m => decide (m.utc_date < t))) :
    ∀ (team_id competition_id : ℕ) (season : ℤ),
      Features.get_season_stats db1 team_id competition_id season t =
        Features.get_season_stats db2 team_id competition_id season t := by
  intro team_id competition_id season
  simp only [Features.get_season_stats]
  rw [pastFilter_congr h]

/-- Helper: `get_ultra_recent_form` is insensitive to rows dated at or after
the cutoff. -/
theorem get_ultra_recent_form_ni
    (h : db1.filter (fun m => decide (m.utc_date < t)) =
         db2.filter (fun m => decide (m.utc_date < t))) :
    ∀ team_id : ℕ,
      Features.get_ultra_recent_form db1 team_id t =
        Features.get_ultra_recent_form db2 team_id t := by
  intro team_id
  simp only [Features.get_ultra_recent_form]
  rw [pastFilter_congr h]

/-- Helper: `get_momentum` is insensitive to rows dated at or after the
cutoff. -/
theorem get_momentum_ni
    (h : db1.filter (fun m => decide (m.utc_date < t)) =
         db2.filter (fun m => decide (m.utc_date < t))) :
    ∀ team_id : ℕ,
      Features.get_momentum db1 team_id t = Features.get_momentum db2 team_id t := by
  intro team_id
  simp only [Features.get_momentum]
  rw [pastFilter_congr h]

/-- Helper: `get_advanced_stats` is insensitive to rows dated at or after the
cutoff. -/
theorem get_advanced_stats_ni
    (h : db1.filter (fun m => decide (m.utc_date < t)) =
         db2.filter (fun m => decide (m.utc_date < t))) :
    ∀ (team_id n : ℕ),
      Features.get_advanced_stats db1 team_id t n =
        Features.get_advanced_stats db2 team_id t n := by
  intro team_id n
  simp only [Features.get_advanced_stats]
  rw [pastFilter_congr h]

/-- Helper: `get_defensive_stats` is insensitive to rows dated at or after
the cutoff. -/
theorem get_defensive_stats_ni
    (h : db1.filter (fun m => decide (m.utc_date < t)) =
         db2.filter (fun m => decide (m.utc_date < t))) :
    ∀ (team_id n : ℕ),
      Features.get_defensive_stats db1 team_id t n =
        Features.get_defensive_stats db2 team_id t n := by
  intro team_id n
  simp only [Features.get_defensive_stats]
  rw [pastFilter_congr h]

/-- Helper: `get_season_home_away_split` is insensitive to rows dated at or
after the cutoff. -/
theorem get_season_home_away_split_ni
    (h : db1.filter (fun m => decide (m.utc_date < t)) =
         db2.filter (fun m => decide (m.utc_date < t))) :
    ∀ (team_id competition_id : ℕ) (season : ℤ),
      Features.get_season_home_away_split db1 team_id competition_id season t =
        Features.get_season_home_away_split db2 team_id competition_id season t := by
  intro team_id competition_id season
  simp only [Features.get_season_home_away_split]
  rw [pastFilter_congr h, pastFilter_congr h]

/-- Helper: `get_h2h_advanced` is insensitive to rows dated at or after the
cutoff. -/
theorem get_h2h_advanced_ni
    (h : db1.filter (fun m => decide (m.utc_date < t)) =
         db2.filter (fun m => decide (m.utc_date < t))) :
    ∀ (t1 t2 : ℕ),
      Features.get_h2h_advanced db1 t1 t2 t = Features.get_h2h_advanced db2 t1 t2 t := by
  intro t1 t2
  simp only [Features.get_h2h_advanced]
  rw [pastFilter_congr h]

end FeatureNI
/-- Helper: a guarded Elo lookup reads only past-dated rows: on tables with
at most one row per key that agree on their past-dated rows, the default
`(1500, 0)` is produced in exactly the same cases and otherwise the same
unique past row is read. -/
theorem ratingAndMomentum_ni {edb1 edb2 : List Features.EloRow} {t : ℤ}
    (h : edb1.filter (Features.eloPastBefore t) = edb2.filter (Features.eloPastBefore t))
    (key : Features.EloRow → Bool)
    (hu1 : (edb1.filter key).length ≤ 1) (hu2 : (edb2.filter key).length ≤ 1) :
    Features.ratingAndMomentum edb1 key t = Features.ratingAndMomentum edb2 key t := by
  have hcomm : ∀ edb : List Features.EloRow,
      (edb.filter key).filter (Features.eloPastBefore t) =
        (edb.filter (Features.eloPastBefore t)).filter key := by
    intro edb
    rw [List.filter_filter, List.filter_filter]
    exact List.filter_congr (fun a _ => by rw [Bool.and_comm])
  have hl : (edb1.filter key).filter (Features.eloPastBefore t) =
      (edb2.filter key).filter (Features.eloPastBefore t) := by
    rw [hcomm, hcomm, h]
  -- the guarded read factors through the filtered lists
  have hread : ∀ r : Features.EloRow, Features.eloPastBefore t r = false →
      (match r.last_match_date with
        | some d => if t ≤ d then ((1500:ℝ), (0:ℝ)) else (r.rating, Features.elo_momentum r)
        | none => (r.rating, Features.elo_momentum r)) = ((1500:ℝ), (0:ℝ)) := by
    intro r hr
    unfold Features.eloPastBefore at hr
    match hd : r.last_match_date with
    | none => rw [hd] at hr; simp at hr
    | some d =>
      rw [hd] at hr
      simp only [decide_eq_false_iff_not, not_lt] at hr
      simp [hr]
  unfold Features.ratingAndMomentum Features.eloGet
  match h1 : edb1.filter key, h2 : edb2.filter key with
  | [], [] => dsimp only
  | [], r2 :: l2 =>
    have hl2 : l2 = [] := by
      have := hu2
      rw [h2] at this
      simp at this
      simp [this]
    subst hl2
    rw [h1, h2] at hl
    simp only [List.filter_nil] at hl
    by_cases hp : Features.eloPastBefore t r2 = true
    · rw [List.filter_cons_of_pos hp] at hl
      simp at hl
    · have hp2 : Features.eloPastBefore t r2 = false := by
        cases hq : Features.eloPastBefore t r2
        · rfl
        · exact absurd hq hp
      exact (hread r2 hp2).symm
  | r1 :: l1, [] =>
    have hl1 : l1 = [] := by
      have := hu1
      rw [h1] at this
      simp at this
      simp [this]
    subst hl1
    rw [h1, h2] at hl
    simp only [List.filter_nil] at hl
    by_cases hp : Features.eloPastBefore t r1 = true
    · rw [List.filter_cons_of_pos hp] at hl
      simp at hl
    · have hp1 : Features.eloPastBefore t r1 = false := by
        cases hq : Features.eloPastBefore t r1
        · rfl
        · exact absurd hq hp
      exact hread r1 hp1
  | r1 :: l1, r2 :: l2 =>
    have hl1 : l1 = [] := by
      have := hu1
      rw [h1] at this
      simp at this
      simp [this]
    have hl2 : l2 = [] := by
      have := hu2
      rw [h2] at this
      simp at this
      simp [this]
    subst hl1
    subst hl2
    rw [h1, h2] at hl
    by_cases hp1 : Features.eloPastBefore t r1 = true
    · rw [List.filter_cons_of_pos hp1] at hl
      by_cases hp2 : Features.eloPastBefore t r2 = true
      · rw [List.filter_cons_of_pos hp2] at hl
        simp only [List.filter_nil, List.cons.injEq] at hl
        dsimp only
        rw [hl.1]
      · have hp2f : Features.eloPastBefore t r2 = false := by
          cases hq : Features.eloPastBefore t r2
          · rfl
          · exact absurd hq hp2
        rw [List.filter_cons_of_neg (by simp [hp2f])] at hl
        simp at hl
    · have hp1f : Features.eloPastBefore t r1 = false := by
        cases hq : Features.eloPastBefore t r1
        · rfl
        · exact absurd hq hp1
      rw [List.filter_cons_of_neg (by simp [hp1f])] at hl
      by_cases hp2 : Features.eloPastBefore t r2 = true
      · rw [List.filter_cons_of_pos hp2] at hl
        simp at hl
      · have hp2f : Features.eloPastBefore t r2 = false := by
          cases hq : Features.eloPastBefore t r2
          · rfl
          · exact absurd hq hp2
        dsimp only
        rw [hread r1 hp1f, hread r2 hp2f]
/-- Claim C7: two-run temporal noninterference of the feature pipeline.  For
any target match, two match tables whose strictly-past rows (dated before the
target kickoff) coincide yield bit-identical
`EnhancedFeatureEngineer.calculate_enhanced_features` vectors: matches dated
on or after kickoff may be mutated, added or removed freely.  Likewise, two
`EloRating` tables that agree on rows whose `last_match_date` is unset or
before the kickoff are indistinguishable to `get_elo_features` (rows dated on
or after kickoff are replaced by the 1500/0 defaults by its leak guard),
under the documented at-most-one-row-per-(team, competition, season)
invariant.  `calculate_enhanced_features` itself reads no `EloRating` data in
this codebase (`get_elo_features` is never invoked by it), so the feature
vector depends on no Elo row at all. -/
theorem C7_enhanced_features_noninterference
    (db1 db2 : List Features.MatchRow) (target : Features.MatchRow)
    (edb1 edb2 : List Features.EloRow)
    (home_id away_id competition_id : ℕ) (season : ℤ)
    (hM : db1.filter (fun m => decide (m.utc_date < target.utc_date)) =
          db2.filter (fun m => decide (m.utc_date < target.utc_date)))
    (hE : edb1.filter (Features.eloPastBefore target.utc_date) =
          edb2.filter (Features.eloPastBefore target.utc_date))
    (hU : ∀ key : Features.EloRow → Bool,
      (edb1.filter key).length ≤ 1 ∧ (edb2.filter key).length ≤ 1) :
    Features.calculate_enhanced_features db1 target =
      Features.calculate_enhanced_features db2 target ∧
    Features.get_elo_features edb1 home_id away_id competition_id season target.utc_date =
      Features.get_elo_features edb2 home_id away_id competition_id season target.utc_date := by
  constructor
  · have hbase : Features.calculate_match_features db1 target =
        Features.calculate_match_features db2 target := by
      simp only [Features.calculate_match_features]
      rw [get_team_form_ni hM, get_team_form_ni hM, get_home_away_form_ni hM,
        get_home_away_form_ni hM, get_head_to_head_ni hM, get_season_stats_ni hM,
        get_season_stats_ni hM]
    simp only [Features.calculate_enhanced_features]
    rw [hbase, get_ultra_recent_form_ni hM, get_ultra_recent_form_ni hM,
      get_momentum_ni hM, get_momentum_ni hM, get_advanced_stats_ni hM,
      get_advanced_stats_ni hM, get_defensive_stats_ni hM, get_defensive_stats_ni hM,
      get_season_home_away_split_ni hM, get_season_home_away_split_ni hM,
      get_h2h_advanced_ni hM]
  · simp only [Features.get_elo_features]
    rw [ratingAndMomentum_ni hE _ (hU _).1 (hU _).2,
      ratingAndMomentum_ni hE _ (hU _).1 (hU _).2,
      ratingAndMomentum_ni hE _ (hU _).1 (hU _).2,
      ratingAndMomentum_ni hE _ (hU _).1 (hU _).2]

/-- Witness for C7 at a concrete input: an empty table against a table
holding only a match dated after the target kickoff. -/
theorem C7_enhanced_features_noninterference_witness :
    let tgt : Features.MatchRow :=
      ⟨1, 10, 11, 1, 2024, 0, "SCHEDULED", none, none, none, none, none, none,
        none, none, none, none, none, none, none, none, none, none⟩
    let fut : Features.MatchRow :=
      ⟨2, 10, 11, 1, 2024, 7, "FINISHED", some 3, some 1, some 1, some 0, none, none,
        none, none, none, none, none, none, none, none, none, none⟩
    (([] : List Features.MatchRow).filter (fun m => decide (m.utc_date < tgt.utc_date)) =
      [fut].filter (fun m => decide (m.utc_date < tgt.utc_date))) ∧
    Features.calculate_enhanced_features [] tgt =
      Features.calculate_enhanced_features [fut] tgt := by
  intro tgt fut
  exact ⟨by decide,
    (C7_enhanced_features_noninterference [] [fut] tgt [] [] 10 11 1 2024
      (by decide) rfl (fun key => ⟨by simp, by simp⟩)).1⟩
